import Mathlib

/-!
Verification of the CouMap/crawler repository: a shallow embedding, in Lean 4,
of its address parsing, geocoding resolution, persistence and session-recovery
logic, together with theorems settling the specification claims.

The embedding follows the Python sources under `src/`:
  - `src/utils/address_parser.py`  (AddressParser)
  - `src/map_api/base.py`, `src/map_api/kakao_api.py`, `src/map_api/naver_api.py`,
    `src/map_api/__init__.py`      (geocoding resolution)
  - `src/database.py`              (persistence queries)
  - `src/crawler/base_crawler.py`  (recovery executor, save path)
  - `src/crawler/crawler.py`       (pagination)

Python strings are modelled as Lean `String`; the Python string primitives used
by the sources (`str.split`, `str.strip`, `in`, `str.lower`, `str.endswith`,
single-character `str.replace`, and the digit regexes) are given explicit
executable models below. Floats are modelled as `ℚ` (every arithmetic step of
the sources is exact on the values involved). External effects (HTTP calls,
the Selenium driver, wall-clock time) are passed in as explicit oracles.
-/

/-! ## Python string primitives -/

/-- Whitespace test used by Python `str.split()` / `str.strip()` (the sources
only ever meet ASCII whitespace). -/
def pyIsWs (c : Char) : Bool := c.isWhitespace

/-- Model of Python `str.strip()` on a character list: drop whitespace from
both ends. -/
def stripChars (l : List Char) : List Char :=
  ((l.dropWhile pyIsWs).reverse.dropWhile pyIsWs).reverse

/-- Model of Python `str.strip()`. -/
def pyStrip (s : String) : String := String.mk (stripChars s.data)

/-- Accumulator-based scanner for Python `str.split()`: `acc` holds the
characters of the token currently being read, in reverse order. -/
def splitWsAux : List Char → List Char → List (List Char)
  | [], acc => if acc.isEmpty then [] else [acc.reverse]
  | c :: rest, acc =>
    if pyIsWs c then
      if acc.isEmpty then splitWsAux rest [] else acc.reverse :: splitWsAux rest []
    else splitWsAux rest (c :: acc)

/-- Model of Python `str.split()` (split on whitespace runs, no empty tokens)
at the character-list level. -/
def splitWsChars (l : List Char) : List (List Char) := splitWsAux l []

/-- Model of Python `str.split()`. -/
def pySplit (s : String) : List String := (splitWsChars s.data).map String.mk

/-- Model of Python `' '.join(tokens)` at the character-list level. -/
def joinSpChars : List (List Char) → List Char
  | [] => []
  | [t] => t
  | t :: u :: rest => t ++ ' ' :: joinSpChars (u :: rest)

/-- Model of Python `' '.join(tokens)`. -/
def joinSp (ts : List String) : String := String.mk (joinSpChars (ts.map String.data))

/-- Occurrence of `needle` as a contiguous sublist of `hay`. -/
def isSubChars (needle : List Char) : List Char → Bool
  | [] => needle.isEmpty
  | c :: rest => needle.isPrefixOf (c :: rest) || isSubChars needle rest

/-- Model of the Python substring test `needle in hay`. -/
def isSub (needle hay : String) : Bool := isSubChars needle.data hay.data

/-- Model of Python `s.endswith(suffix)`. -/
def pyEndsWith (s suffix : String) : Bool := suffix.data.isSuffixOf s.data

/-- Model of Python `str.lower()` (the sources only lowercase ASCII). -/
def pyLower (s : String) : String := String.mk (s.data.map Char.toLower)

/-- Model of the Python regex test `re.search(r'\d', s)`. -/
def hasDigit (s : String) : Bool := s.data.any Char.isDigit

/-- Model of the Python regex substitution `re.sub(r'\d+', '', s)`: removing
every maximal digit run is removing every digit character. -/
def stripDigits (s : String) : String := String.mk (s.data.filter (fun c => !c.isDigit))

/-- Model of single-character Python `str.replace(a, b)` (used by the sources
only with one-character patterns). -/
def pyReplaceChar (s : String) (a b : Char) : String :=
  String.mk (s.data.map (fun c => if c = a then b else c))

/-- Model of single-character Python `str.replace(a, '')`: deleting every
occurrence of the character `a`. -/
def pyDropChar (s : String) (a : Char) : String :=
  String.mk (s.data.filter (fun c => c ≠ a))

/-- Python truthiness of an `Optional[str]` value: `None` and `''` are falsy. -/
def pyTruthy : Option String → Bool
  | none => false
  | some s => !(s == "")

/-! ## AddressParser (`src/utils/address_parser.py`) -/

/-- Result of `AddressParser.parse_address`. -/
structure ParsedAddress where
  province : Option String
  city : Option String
  town : Option String
  detail : Option String
deriving Repr, DecidableEq

/-- The 17-entry `PROVINCE_MAPPING` table, in source (insertion) order. -/
def PROVINCE_MAPPING : List (String × String) :=
  [("서울", "서울특별시"), ("부산", "부산광역시"), ("대구", "대구광역시"),
   ("인천", "인천광역시"), ("광주", "광주광역시"), ("대전", "대전광역시"),
   ("울산", "울산광역시"), ("세종", "세종특별자치시"), ("경기", "경기도"),
   ("강원", "강원도"), ("충북", "충청북도"), ("충남", "충청남도"),
   ("전북", "전라북도"), ("전남", "전라남도"), ("경북", "경상북도"),
   ("경남", "경상남도"), ("제주", "제주특별자치도")]

/-- One iteration of the `_extract_province` loop body: exact key lookup on the
token first, then the first mapping key occurring as a substring of the token. -/
def provinceForPart (part : String) : Option String :=
  match PROVINCE_MAPPING.find? (fun kv => kv.1 == part) with
  | some kv => some kv.2
  | none => (PROVINCE_MAPPING.find? (fun kv => isSub kv.1 part)).map (fun kv => kv.2)

/-- Model of `AddressParser._extract_province`. -/
def extract_province (parts : List String) : Option String :=
  match parts.findSome? provinceForPart with
  | some p => some p
  | none => if isSub "강남구" (joinSp parts) then some "서울특별시" else none

/-- City-level unit suffixes accepted by `_extract_city`. -/
def citySuffixes : List String := ["구", "시", "군"]

/-- Province-level suffixes excluded by `_extract_city`. -/
def provinceSuffixes : List String := ["특별시", "광역시", "도", "자치시", "자치도"]

/-- One iteration of the `_extract_city` loop body. -/
def cityForPart (part : String) : Option String :=
  if citySuffixes.any (fun suf => isSub suf part) then
    if !(provinceSuffixes.any (fun suf => isSub suf part)) then
      some (if isSub "구" part && !pyEndsWith part "구" then
              (if pyEndsWith part "청" || pyEndsWith part "역" then
                 let city := pyDropChar (pyDropChar part '청') '역'
                 if !pyEndsWith city "구" then city ++ "구" else city
               else part)
            else part)
    else none
  else none

/-- Model of `AddressParser._extract_city`. -/
def extract_city (parts : List String) : Option String :=
  match parts.findSome? cityForPart with
  | some c => some c
  | none => if isSub "강남구" (joinSp parts) then some "강남구" else none

/-- Town-level sub-unit suffixes accepted by `_extract_town`. -/
def townSuffixes : List String := ["동", "면", "읍", "리"]

/-- Model of `AddressParser._extract_town`. -/
def extract_town (parts : List String) : Option String :=
  parts.find? (fun part => townSuffixes.any (fun suf => isSub suf part))

/-- Test of the `_extract_detail` generator condition
`excluded_item and excluded_item in part` (under the `if excluded_item` filter). -/
def exclHit (e : Option String) (part : String) : Bool :=
  match e with
  | some s => !(s == "") && isSub s part
  | none => false

/-- Model of `AddressParser._extract_detail`. -/
def extract_detail (parts : List String) (province city town : Option String) :
    Option String :=
  let detail_parts := parts.filter
    (fun part => !([province, city, town].any (fun e => exclHit e part)))
  if detail_parts.isEmpty then none else some (joinSp detail_parts)

/-- Model of `AddressParser.parse_address`: comma-to-space preprocessing, strip,
whitespace tokenisation, then the four component extractors. -/
def parse_address (address : String) : ParsedAddress :=
  let cleaned := pyStrip (pyReplaceChar address ',' ' ')
  let parts := pySplit cleaned
  let province := extract_province parts
  let city := extract_city parts
  let town := extract_town parts
  let detail := extract_detail parts province city town
  ⟨province, city, town, detail⟩

/-- Model of `AddressParser.is_valid_address`. -/
def is_valid_address (address : String) : Bool :=
  if address == "" || (pyStrip address).length < 5 then false
  else
    let parsed := parse_address address
    parsed.province.isSome && parsed.city.isSome

/-- Model of `AddressParser._similar_town`: digit-stripped equality. -/
def similar_town (town1 town2 : String) : Bool :=
  stripDigits town1 == stripDigits town2

/-- Model of `AddressParser._calculate_string_similarity`: token-set Jaccard
similarity (Python sets of whitespace tokens). -/
def calculate_string_similarity (str1 str2 : String) : ℚ :=
  if str1 == "" || str2 == "" then 0
  else if ((pySplit str1).toFinset ∪ (pySplit str2).toFinset).card > 0 then
    ((((pySplit str1).toFinset ∩ (pySplit str2).toFinset).card : ℚ) /
      (((pySplit str1).toFinset ∪ (pySplit str2).toFinset).card : ℚ))
  else 0

/-- The province block of `compare_addresses`: under mutual truthiness, add 3
to the score on equality and 3 to the total weight. -/
def provinceBlock (sw : ℚ × ℚ) (p1 p2 : Option String) : ℚ × ℚ :=
  if pyTruthy p1 && pyTruthy p2 then
    (sw.1 + (if p1 = p2 then 3 else 0), sw.2 + 3)
  else sw

/-- The city block of `compare_addresses`: weight 3, scored on equality. -/
def cityBlock (sw : ℚ × ℚ) (c1 c2 : Option String) : ℚ × ℚ :=
  if pyTruthy c1 && pyTruthy c2 then
    (sw.1 + (if c1 = c2 then 3 else 0), sw.2 + 3)
  else sw

/-- The town block of `compare_addresses`: weight 2, scored 2 on equality and 1
on `_similar_town` (digit-stripped equality). -/
def townBlock (sw : ℚ × ℚ) (t1 t2 : Option String) : ℚ × ℚ :=
  match t1, t2 with
  | some a, some b =>
    if !(a == "") && !(b == "") then
      (sw.1 + (if a = b then 2 else if similar_town a b then 1 else 0), sw.2 + 2)
    else sw
  | _, _ => sw

/-- The detail block of `compare_addresses`: weight 1, scored by the token-set
Jaccard similarity. -/
def detailBlock (sw : ℚ × ℚ) (d1 d2 : Option String) : ℚ × ℚ :=
  match d1, d2 with
  | some a, some b =>
    if !(a == "") && !(b == "") then
      (sw.1 + calculate_string_similarity a b, sw.2 + 1)
    else sw
  | _, _ => sw

/-- The accumulation body of `AddressParser.compare_addresses` on two already
parsed addresses: the four weighted blocks run in sequence on the
(score, total_weight) accumulator starting from (0, 0), then the final ratio
(0 when the total weight is 0). -/
def compareParsed (parsed1 parsed2 : ParsedAddress) : ℚ :=
  let sw1 := provinceBlock (0, 0) parsed1.province parsed2.province
  let sw2 := cityBlock sw1 parsed1.city parsed2.city
  let sw3 := townBlock sw2 parsed1.town parsed2.town
  let sw4 := detailBlock sw3 parsed1.detail parsed2.detail
  if sw4.2 > 0 then sw4.1 / sw4.2 else 0

/-- Model of `AddressParser.compare_addresses`. -/
def compare_addresses (addr1 addr2 : String) : ℚ :=
  compareParsed (parse_address addr1) (parse_address addr2)

/-! ## Helper lemmas on the string primitives -/

lemma stripChars_length_le (l : List Char) : (stripChars l).length ≤ l.length := by
  unfold stripChars
  have h1 := (List.dropWhile_sublist (l := l) (p := pyIsWs)).length_le
  have h2 := (List.dropWhile_sublist (l := (l.dropWhile pyIsWs).reverse)
    (p := pyIsWs)).length_le
  simp only [List.length_reverse] at *
  omega

lemma pyStrip_length_le (s : String) : (pyStrip s).length ≤ s.length :=
  stripChars_length_le s.data

lemma isSub_refl (s : String) : isSub s s = true := by
  unfold isSub isSubChars
  cases h : s.data with
  | nil => rfl
  | cons c t =>
    simp only [isSubChars]
    have : (c :: t).isPrefixOf (c :: t) = true :=
      List.isPrefixOf_iff_prefix.mpr (List.prefix_refl _)
    simp [this]

/-! ## Claim C4: short/empty input handling of Parse -/

/-- Claim C4 counterexample: the claim states that every input shorter than 5
characters parses to all-null components, but the 1-character input "동" parses
with a non-null town component ("동" matches the town suffix loop), so the
claim as stated is false. -/
theorem parse_short_input_not_all_null_cex :
    ("동" : String).length < 5 ∧ (parse_address "동").town = some "동" := by
  constructor
  · decide
  · rfl

/-- Claim C4 (amended): `parse_address` itself performs no length check — short
inputs may parse to non-null components. What holds is: the empty input parses
to all-null components, and every input shorter than 5 characters is rejected
by the validity predicate `is_valid_address` (which returns `false`). -/
theorem short_input_invalid_empty_parses_null (s : String) :
    (s.length < 5 → is_valid_address s = false) ∧
    (s = "" → parse_address s = ⟨none, none, none, none⟩) := by
  constructor
  · intro h
    have hle : (pyStrip s).length ≤ s.length := pyStrip_length_le s
    unfold is_valid_address
    rw [if_pos]
    simp only [Bool.or_eq_true, decide_eq_true_eq]
    right
    omega
  · intro h
    subst h
    rfl

/-- Claim C4 (amended) witness: the conclusions at the concrete inputs "동"
and the empty string. -/
theorem short_input_invalid_empty_parses_null_witness :
    is_valid_address "동" = false ∧ parse_address "" = ⟨none, none, none, none⟩ :=
  ⟨(short_input_invalid_empty_parses_null "동").1 (by decide),
   (short_input_invalid_empty_parses_null "").2 rfl⟩

/-! ## Claim C10: the Gangnam defaults of province/city extraction -/

/-- Claim C10: if no token of the cleaned address matches an entry of the
17-province mapping (neither exactly nor by substring) but the joined token
string contains the literal substring "강남구", Parse returns province
"서울특별시"; and if additionally the city-suffix loop finds no token, Parse
returns city "강남구" — components not derived from any administrative token
actually present in the input. -/
theorem parse_address_gangnam_defaults (address : String)
    (hprov : ∀ part ∈ pySplit (pyStrip (pyReplaceChar address ',' ' ')),
      ∀ kv ∈ PROVINCE_MAPPING, isSub kv.1 part = false)
    (hgangnam :
      isSub "강남구" (joinSp (pySplit (pyStrip (pyReplaceChar address ',' ' ')))) = true) :
    (parse_address address).province = some "서울특별시" ∧
    ((∀ part ∈ pySplit (pyStrip (pyReplaceChar address ',' ' ')), cityForPart part = none) →
      (parse_address address).city = some "강남구") := by
  set parts := pySplit (pyStrip (pyReplaceChar address ',' ' ')) with hparts
  have hfind : parts.findSome? provinceForPart = none := by
    rw [List.findSome?_eq_none]
    intro part hmem
    unfold provinceForPart
    have hexact : PROVINCE_MAPPING.find? (fun kv => kv.1 == part) = none := by
      rw [List.find?_eq_none]
      intro kv hkv hbeq
      have heq : kv.1 = part := by simpa using hbeq
      have hfalse := hprov part hmem kv hkv
      rw [heq, isSub_refl part] at hfalse
      exact absurd hfalse (by simp)
    have hsubst : PROVINCE_MAPPING.find? (fun kv => isSub kv.1 part) = none := by
      rw [List.find?_eq_none]
      intro kv hkv hbeq
      have := hprov part hmem kv hkv
      simp [this] at hbeq
    rw [hexact, hsubst]
    rfl
  constructor
  · show (extract_province parts) = some "서울특별시"
    unfold extract_province
    rw [hfind, hgangnam]
    simp
  · intro hcity
    show (extract_city parts) = some "강남구"
    have hfindc : parts.findSome? cityForPart = none := by
      rw [List.findSome?_eq_none]
      exact hcity
    unfold extract_city
    rw [hfindc, hgangnam]
    simp

/-- Claim C10 witness: the single-token address "강남구빌도" matches no province
entry, contains "강남구", and its only token is skipped by the city loop (it
contains the province suffix "도"); Parse nevertheless returns the defaults. -/
theorem parse_address_gangnam_defaults_witness :
    (parse_address "강남구빌도").province = some "서울특별시" ∧
    (parse_address "강남구빌도").city = some "강남구" := by
  have h := parse_address_gangnam_defaults "강남구빌도" (by decide) (by decide)
  exact ⟨h.1, h.2 (by decide)⟩

/-! ## Claim C7: the weighted address-similarity score -/

/-- Specification-side description of the province component of the similarity
score: weight 3, scored 3 exactly when the provinces are equal, contributing
nothing when either side is absent. Returns (score, weight). -/
def specProvincePiece (p1 p2 : Option String) : ℚ × ℚ :=
  if pyTruthy p1 && pyTruthy p2 then ((if p1 = p2 then 3 else 0), 3) else (0, 0)

/-- Specification-side description of the city component: weight 3, scored 3
exactly when the cities are equal. Returns (score, weight). -/
def specCityPiece (c1 c2 : Option String) : ℚ × ℚ :=
  if pyTruthy c1 && pyTruthy c2 then ((if c1 = c2 then 3 else 0), 3) else (0, 0)

/-- Specification-side description of the town component: weight 2, scored 2 on
exact equality, 1 when the digit-stripped forms coincide, 0 otherwise.
Returns (score, weight). -/
def specTownPiece (t1 t2 : Option String) : ℚ × ℚ :=
  match t1, t2 with
  | some a, some b =>
    if !(a == "") && !(b == "") then
      ((if a = b then 2 else if similar_town a b then 1 else 0), 2)
    else (0, 0)
  | _, _ => (0, 0)

/-- Specification-side description of the detail component: weight 1, scored by
the token-set Jaccard similarity. Returns (score, weight). -/
def specDetailPiece (d1 d2 : Option String) : ℚ × ℚ :=
  match d1, d2 with
  | some a, some b =>
    if !(a == "") && !(b == "") then (calculate_string_similarity a b, 1)
    else (0, 0)
  | _, _ => (0, 0)

/-- Specification-side achieved weight of the similarity score. -/
def specScore (x y : ParsedAddress) : ℚ :=
  (specProvincePiece x.province y.province).1 + (specCityPiece x.city y.city).1 +
    (specTownPiece x.town y.town).1 + (specDetailPiece x.detail y.detail).1

/-- Specification-side total applicable weight of the similarity score. -/
def specWeight (x y : ParsedAddress) : ℚ :=
  (specProvincePiece x.province y.province).2 + (specCityPiece x.city y.city).2 +
    (specTownPiece x.town y.town).2 + (specDetailPiece x.detail y.detail).2

lemma jaccard_nonneg (a b : String) : 0 ≤ calculate_string_similarity a b := by
  unfold calculate_string_similarity
  split_ifs <;> positivity

lemma jaccard_le_one (a b : String) : calculate_string_similarity a b ≤ 1 := by
  unfold calculate_string_similarity
  split_ifs with h1 h2
  · norm_num
  · rw [div_le_one (by exact_mod_cast h2)]
    exact_mod_cast Finset.card_le_card (Finset.inter_subset_union)
  · norm_num

lemma specProvincePiece_bounds (p1 p2 : Option String) :
    0 ≤ (specProvincePiece p1 p2).1 ∧
      (specProvincePiece p1 p2).1 ≤ (specProvincePiece p1 p2).2 := by
  unfold specProvincePiece
  split_ifs <;> norm_num

lemma specCityPiece_bounds (c1 c2 : Option String) :
    0 ≤ (specCityPiece c1 c2).1 ∧ (specCityPiece c1 c2).1 ≤ (specCityPiece c1 c2).2 := by
  unfold specCityPiece
  split_ifs <;> norm_num

lemma specTownPiece_bounds (t1 t2 : Option String) :
    0 ≤ (specTownPiece t1 t2).1 ∧ (specTownPiece t1 t2).1 ≤ (specTownPiece t1 t2).2 := by
  unfold specTownPiece
  rcases t1 with _ | a <;> rcases t2 with _ | b <;> simp <;> split_ifs <;> norm_num

lemma specDetailPiece_bounds (d1 d2 : Option String) :
    0 ≤ (specDetailPiece d1 d2).1 ∧
      (specDetailPiece d1 d2).1 ≤ (specDetailPiece d1 d2).2 := by
  unfold specDetailPiece
  rcases d1 with _ | a
  · simp
  · rcases d2 with _ | b
    · simp
    · by_cases h : (!(a == "") && !(b == "")) = true
      · simp only [h, if_true]
        exact ⟨jaccard_nonneg a b, jaccard_le_one a b⟩
      · simp only [h, if_false]
        norm_num

lemma provinceBlock_eq (sw : ℚ × ℚ) (p1 p2 : Option String) :
    provinceBlock sw p1 p2 =
      (sw.1 + (specProvincePiece p1 p2).1, sw.2 + (specProvincePiece p1 p2).2) := by
  unfold provinceBlock specProvincePiece
  split_ifs <;> simp

lemma cityBlock_eq (sw : ℚ × ℚ) (c1 c2 : Option String) :
    cityBlock sw c1 c2 =
      (sw.1 + (specCityPiece c1 c2).1, sw.2 + (specCityPiece c1 c2).2) := by
  unfold cityBlock specCityPiece
  split_ifs <;> simp

lemma townBlock_eq (sw : ℚ × ℚ) (t1 t2 : Option String) :
    townBlock sw t1 t2 =
      (sw.1 + (specTownPiece t1 t2).1, sw.2 + (specTownPiece t1 t2).2) := by
  unfold townBlock specTownPiece
  rcases t1 with _ | a <;> rcases t2 with _ | b <;> simp <;> split_ifs <;> simp

lemma detailBlock_eq (sw : ℚ × ℚ) (d1 d2 : Option String) :
    detailBlock sw d1 d2 =
      (sw.1 + (specDetailPiece d1 d2).1, sw.2 + (specDetailPiece d1 d2).2) := by
  unfold detailBlock specDetailPiece
  rcases d1 with _ | a <;> rcases d2 with _ | b <;> simp <;> split_ifs <;> simp

lemma compareParsed_eq_spec (x y : ParsedAddress) :
    compareParsed x y =
      if specWeight x y > 0 then specScore x y / specWeight x y else 0 := by
  unfold compareParsed specScore specWeight
  simp only [provinceBlock_eq, cityBlock_eq, townBlock_eq, detailBlock_eq]
  simp [zero_add, add_assoc]

/-- Claim C7: for all address strings a and b the similarity lies in [0, 1] and
equals the achieved weight divided by the total applicable weight (province
weight 3 on equality, city weight 3 on equality, town weight 2 with the
digit-stripped fallback at half weight, detail weight 1 scored by token-set
Jaccard; components absent on either side contribute nothing to the
denominator, and a zero denominator yields 0); and two towns whose
digit-stripped forms coincide (in particular towns differing only by a trailing
digit group) score at least half of the town weight 2. -/
theorem compare_addresses_weighted_spec (a b : String) :
    (0 ≤ compare_addresses a b ∧ compare_addresses a b ≤ 1) ∧
    compare_addresses a b =
      (if specWeight (parse_address a) (parse_address b) > 0 then
        specScore (parse_address a) (parse_address b) /
          specWeight (parse_address a) (parse_address b)
      else 0) ∧
    (∀ t1 t2, (parse_address a).town = some t1 → (parse_address b).town = some t2 →
      t1 ≠ "" → t2 ≠ "" → stripDigits t1 = stripDigits t2 →
      1 ≤ (specTownPiece (some t1) (some t2)).1 ∧
        (specTownPiece (some t1) (some t2)).2 = 2) := by
  have heq : compare_addresses a b =
      if specWeight (parse_address a) (parse_address b) > 0 then
        specScore (parse_address a) (parse_address b) /
          specWeight (parse_address a) (parse_address b)
      else 0 :=
    compareParsed_eq_spec (parse_address a) (parse_address b)
  set x := parse_address a
  set y := parse_address b
  have hsb : 0 ≤ specScore x y ∧ specScore x y ≤ specWeight x y := by
    have h1 := specProvincePiece_bounds x.province y.province
    have h2 := specCityPiece_bounds x.city y.city
    have h3 := specTownPiece_bounds x.town y.town
    have h4 := specDetailPiece_bounds x.detail y.detail
    unfold specScore specWeight
    constructor
    · have := h1.1; have := h2.1; have := h3.1; have := h4.1
      positivity
    · have := h1.2; have := h2.2; have := h3.2; have := h4.2
      linarith
  refine ⟨?_, heq, ?_⟩
  · rw [heq]
    split_ifs with hw
    · constructor
      · exact div_nonneg hsb.1 (le_of_lt hw)
      · rw [div_le_one hw]
        exact hsb.2
    · norm_num
  · intro t1 t2 ht1 ht2 hne1 hne2 hstrip
    have hcond : (!(t1 == "") && !(t2 == "")) = true := by
      simp [hne1, hne2]
    have hpiece : specTownPiece (some t1) (some t2) =
        ((if t1 = t2 then 2 else if similar_town t1 t2 then 1 else 0), 2) := by
      simp only [specTownPiece, hcond, if_true]
    rw [hpiece]
    constructor
    · by_cases heq12 : t1 = t2
      · simp [heq12]
      · have hsim : similar_town t1 t2 = true := by
          unfold similar_town
          simp [hstrip]
        simp [heq12, hsim]
    · rfl

/-- Claim C7 witness: the theorem instantiated at two concrete addresses whose
towns "개포1동" and "개포동" differ only by a trailing digit group; the town
component scores at least 1 out of weight 2. -/
theorem compare_addresses_weighted_spec_witness :
    1 ≤ (specTownPiece (some "개포1동") (some "개포동")).1 ∧
      (specTownPiece (some "개포1동") (some "개포동")).2 = 2 :=
  (compare_addresses_weighted_spec "서울 강남구 개포1동 123"
    "서울 강남구 개포동 123").2.2 "개포1동" "개포동" (by rfl) (by rfl)
    (by decide) (by decide) (by decide)

/-! ## Data model (`src/models.py`) and persistence (`src/database.py`) -/

/-- A `Region` row: (id, province, city, town nullable, code). -/
structure Region where
  id : Nat
  province : String
  city : String
  town : Option String
  code : String
deriving Repr, DecidableEq

/-- A `Category` row: (id, code, name). -/
structure Category where
  id : Nat
  code : String
  name : String
deriving Repr, DecidableEq

/-- A `Store` row (the columns written by `Database.create_store`). -/
structure StoreRow where
  id : Nat
  name : String
  category_id : Nat
  region_id : Nat
  address : String
  latitude : Option ℚ
  longitude : Option ℚ
  annual_sales : Option Nat
  business_days : String
  category : Option String
  is_franchise : Bool
  opening_hours : Option String
deriving Repr, DecidableEq

/-- The relational store: the three tables plus autoincrement counters. -/
structure Database where
  regions : List Region
  categories : List Category
  stores : List StoreRow
  nextRegionId : Nat
  nextCategoryId : Nat
  nextStoreId : Nat
deriving Repr, DecidableEq

/-- SQL `column LIKE '%pat%'` on a nullable town column: NULL never matches. -/
def likeTown (pat : String) (t : Option String) : Bool :=
  match t with
  | some s => isSub pat s
  | none => false

/-- Stage 1 of `Database.get_region_by_name`: exact (province, city, town)
match, attempted only when the requested town is truthy. -/
def regionStage1 (rows : List Region) (province city : String) (town : Option String) :
    Option Region :=
  if pyTruthy town then
    rows.find? (fun r => r.province == province && r.city == city && r.town == town)
  else none

/-- Stage 2: exact match on the digit-stripped town (개포1동 → 개포동),
attempted only when the requested town is truthy and contains a digit. -/
def regionStage2 (rows : List Region) (province city : String) (town : Option String) :
    Option Region :=
  match town with
  | some t =>
    if !(t == "") && hasDigit t then
      rows.find? (fun r => r.province == province && r.city == city &&
        r.town == some (stripDigits t))
    else none
  | none => none

/-- Stage 3-1: first row of the (province, city) pair whose town is LIKE-similar
to the requested town. -/
def regionStage3a (rows : List Region) (province city : String) (town : Option String) :
    Option Region :=
  match town with
  | some t =>
    if !(t == "") then
      rows.find? (fun r => r.province == province && r.city == city && likeTown t r.town)
    else none
  | none => none

/-- Stage 3-2: LIKE-similarity against the digit-stripped requested town. -/
def regionStage3b (rows : List Region) (province city : String) (town : Option String) :
    Option Region :=
  match town with
  | some t =>
    if !(t == "") && hasDigit t then
      rows.find? (fun r => r.province == province && r.city == city &&
        likeTown (stripDigits t) r.town)
    else none
  | none => none

/-- Stage 4: the first ("representative") row of the (province, city) pair. -/
def regionStage4 (rows : List Region) (province city : String) : Option Region :=
  rows.find? (fun r => r.province == province && r.city == city)

/-- Stage 5: flexible LIKE match on both province and city. -/
def regionStage5 (rows : List Region) (province city : String) : Option Region :=
  rows.find? (fun r => isSub province r.province && isSub city r.city)

/-- Model of `Database.get_region_by_name`: the five lookup stages tried in
order, each returning early on a hit. -/
def get_region_by_name (rows : List Region) (province city : String)
    (town : Option String) : Option Region :=
  ((((regionStage1 rows province city town).or
      (regionStage2 rows province city town)).or
      ((regionStage3a rows province city town).or
        (regionStage3b rows province city town))).or
      (regionStage4 rows province city)).or
    (regionStage5 rows province city)

/-- Modelled from the spec: `Database.get_or_create_region` is invoked by
`BaseCrawler.save_store_data` (base_crawler.py line 339) but no definition of
it exists anywhere under `src/`. Per spec section 4.5 it performs an
exact-match lookup on (province, city, town) first and, only when no such row
exists, inserts a new Region with a generated unique code derived from the
triple plus a time-based salt; the salt is abstracted here as an explicit
parameter. -/
def get_or_create_region (db : Database) (salt : String) (province city : String)
    (town : Option String) : Region × Database :=
  match db.regions.find?
      (fun r => r.province == province && r.city == city && r.town == town) with
  | some r => (r, db)
  | none =>
    let r : Region := ⟨db.nextRegionId, province, city, town,
      province ++ city ++ town.getD "" ++ salt⟩
    (r, { db with regions := db.regions ++ [r], nextRegionId := db.nextRegionId + 1 })

/-- Number of Region rows carrying exactly the given (province, city, town)
triple. -/
def regionTripleCount (db : Database) (province city : String) (town : Option String) :
    Nat :=
  db.regions.countP
    (fun r => r.province == province && r.city == city && r.town == town)

/-- Model of `Database.store_exists`: exact equality on (name, address,
region_id), true when the row count is positive. -/
def store_exists (db : Database) (name address : String) (region_id : Nat) : Bool :=
  db.stores.any (fun s => s.name == name && s.address == address &&
    s.region_id == region_id)

/-- Number of Store rows carrying exactly the given (name, address, region_id)
triple. -/
def storeTripleCount (db : Database) (name address : String) (region_id : Nat) : Nat :=
  db.stores.countP (fun s => s.name == name && s.address == address &&
    s.region_id == region_id)

/-- Model of `Database.create_category`: lookup by name, insert when absent. -/
def create_category (db : Database) (code name : String) : Category × Database :=
  match db.categories.find? (fun c => c.name == name) with
  | some c => (c, db)
  | none =>
    let c : Category := ⟨db.nextCategoryId, code, name⟩
    (c, { db with
          categories := db.categories ++ [c]
          nextCategoryId := db.nextCategoryId + 1 })

/-- Model of `Database.create_store`: unconditional insert of a new row (the
`business_days or '월~일'` default is applied on the way in). -/
def create_store (db : Database) (name : String) (category : Category)
    (region : Region) (address : String) (latitude longitude : Option ℚ)
    (annual_sales : Option Nat) (business_days : Option String)
    (category_str : Option String) (is_franchise : Bool)
    (opening_hours : Option String) : StoreRow × Database :=
  let bd := match business_days with
    | some s => if s == "" then "월~일" else s
    | none => "월~일"
  let row : StoreRow := ⟨db.nextStoreId, name, category.id, region.id, address,
    latitude, longitude, annual_sales, bd, category_str, is_franchise, opening_hours⟩
  (row, { db with stores := db.stores ++ [row], nextStoreId := db.nextStoreId + 1 })

/-! ## Claim C9: the region lookup fallback cascade -/

/-- Claim C9: when no Region row exactly matches the requested (province, city,
town) but at least one row exists with exactly that (province, city), the
lookup never returns null: stage 1 misses and the result is produced by the
remaining cascade — digit-stripped exact match, LIKE-similar town,
digit-stripped LIKE-similar town, the first row of the (province, city) pair,
and finally the LIKE match on province and city — so the returned Region's
town may differ from the requested one. -/
theorem get_region_by_name_fallback (rows : List Region) (province city town : String)
    (hpc : ∃ r ∈ rows, r.province = province ∧ r.city = city)
    (hnoexact : ∀ r ∈ rows,
      ¬(r.province = province ∧ r.city = city ∧ r.town = some town)) :
    get_region_by_name rows province city (some town) =
      (((regionStage2 rows province city (some town)).or
          ((regionStage3a rows province city (some town)).or
            (regionStage3b rows province city (some town)))).or
          (regionStage4 rows province city)).or
        (regionStage5 rows province city) ∧
    (get_region_by_name rows province city (some town)).isSome = true := by
  have h1 : regionStage1 rows province city (some town) = none := by
    unfold regionStage1
    split_ifs with ht
    · rw [List.find?_eq_none]
      intro r hr hpred
      simp only [Bool.and_eq_true, beq_iff_eq] at hpred
      exact hnoexact r hr ⟨hpred.1.1, hpred.1.2, hpred.2⟩
    · rfl
  have h4 : (regionStage4 rows province city).isSome = true := by
    rw [regionStage4, List.find?_isSome]
    obtain ⟨r, hr, hp, hc⟩ := hpc
    exact ⟨r, hr, by simp [hp, hc]⟩
  constructor
  · unfold get_region_by_name
    rw [h1, Option.none_or]
  · unfold get_region_by_name
    simp [Option.isSome_or, h4]

/-- Claim C9 witness: a store of one region row (province 서울특별시, city
강남구, town 역삼동); the request for town 개포동 has no exact match but
resolves through the cascade (here: stage 4), demonstrating that the returned
town differs from the requested one. -/
theorem get_region_by_name_fallback_witness :
    (get_region_by_name [⟨1, "서울특별시", "강남구", some "역삼동", "R1"⟩]
      "서울특별시" "강남구" (some "개포동")).isSome = true :=
  (get_region_by_name_fallback [⟨1, "서울특별시", "강남구", some "역삼동", "R1"⟩]
    "서울특별시" "강남구" "개포동"
    ⟨⟨1, "서울특별시", "강남구", some "역삼동", "R1"⟩, by decide, by decide, by decide⟩
    (by decide)).2

/-! ## Claim C1: get-or-create Region idempotence -/

lemma find?_after_get_or_create_region (db : Database) (salt province city : String)
    (town : Option String) :
    ((get_or_create_region db salt province city town).2).regions.find?
        (fun r => r.province == province && r.city == city && r.town == town) =
      some (get_or_create_region db salt province city town).1 := by
  unfold get_or_create_region
  cases h : db.regions.find?
      (fun r => r.province == province && r.city == city && r.town == town) with
  | some r => simp [h]
  | none =>
    simp only [h]
    rw [List.find?_append, h, Option.none_or]
    simp

/-- Claim C1 (spec-modelled): `get_or_create_region` performs the exact-match
lookup first and inserts only when no row exists; two successive calls with an
identical (province, city, town) triple return a Region with the same id, the
second call leaves the store untouched, and when at most one row carried the
triple beforehand, at most one row carries it afterwards. -/
theorem get_or_create_region_idempotent (db : Database) (salt1 salt2 : String)
    (province city : String) (town : Option String)
    (hinv : regionTripleCount db province city town ≤ 1) :
    (get_or_create_region (get_or_create_region db salt1 province city town).2
        salt2 province city town).1.id =
      (get_or_create_region db salt1 province city town).1.id ∧
    (get_or_create_region (get_or_create_region db salt1 province city town).2
        salt2 province city town).2 =
      (get_or_create_region db salt1 province city town).2 ∧
    regionTripleCount (get_or_create_region db salt1 province city town).2
      province city town ≤ 1 := by
  have hfind := find?_after_get_or_create_region db salt1 province city town
  have h2 : get_or_create_region (get_or_create_region db salt1 province city town).2
      salt2 province city town =
      ((get_or_create_region db salt1 province city town).1,
       (get_or_create_region db salt1 province city town).2) := by
    conv_lhs => rw [get_or_create_region]
    rw [hfind]
  refine ⟨by rw [h2], by rw [h2], ?_⟩
  unfold regionTripleCount at *
  unfold get_or_create_region
  cases h : db.regions.find?
      (fun r => r.province == province && r.city == city && r.town == town) with
  | some r => simpa [h] using hinv
  | none =>
    simp only [h, List.countP_append]
    have hz : db.regions.countP
        (fun r => r.province == province && r.city == city && r.town == town) = 0 := by
      rw [List.countP_eq_zero]
      exact fun r hr => by
        have := List.find?_eq_none.mp h r hr
        simpa using this
    simp [hz, List.countP_cons]

/-- Claim C1 witness: starting from the empty store, two calls with the triple
(서울특별시, 강남구, 역삼동) agree on the returned id, the second call changes
nothing, and exactly one row carries the triple. -/
theorem get_or_create_region_idempotent_witness :
    (get_or_create_region
        (get_or_create_region ⟨[], [], [], 0, 0, 0⟩ "s1" "서울특별시" "강남구"
          (some "역삼동")).2 "s2" "서울특별시" "강남구" (some "역삼동")).1.id =
      (get_or_create_region ⟨[], [], [], 0, 0, 0⟩ "s1" "서울특별시" "강남구"
        (some "역삼동")).1.id ∧
    (get_or_create_region
        (get_or_create_region ⟨[], [], [], 0, 0, 0⟩ "s1" "서울특별시" "강남구"
          (some "역삼동")).2 "s2" "서울특별시" "강남구" (some "역삼동")).2 =
      (get_or_create_region ⟨[], [], [], 0, 0, 0⟩ "s1" "서울특별시" "강남구"
        (some "역삼동")).2 ∧
    regionTripleCount
      (get_or_create_region ⟨[], [], [], 0, 0, 0⟩ "s1" "서울특별시" "강남구"
        (some "역삼동")).2 "서울특별시" "강남구" (some "역삼동") ≤ 1 :=
  get_or_create_region_idempotent ⟨[], [], [], 0, 0, 0⟩ "s1" "s2" "서울특별시" "강남구"
    (some "역삼동") (by decide)

/-! ## RecoverableExecutor (`src/crawler/base_crawler.py`) -/

/-- The fixed session-fatal markers of `BaseCrawler.is_session_error`, in
source order. -/
def sessionKeywords : List String :=
  ["invalid session", "session not created", "chrome not reachable",
   "connection refused", "no such window", "disconnected",
   "target window already closed", "chrome has crashed",
   "session deleted because of page crash"]

/-- Model of `BaseCrawler.is_session_error`: substring match of any marker
against the lowercased error message. -/
def is_session_error (msg : String) : Bool :=
  sessionKeywords.any (fun k => isSub k (pyLower msg))

/-- Oracles for the effects consumed by `execute_with_recovery`: the outcome of
the i-th invocation of the wrapped operation (`Except.error` is a raised
exception, carrying its message), the outcome of the k-th pre-retry
`check_browser_health` probe, and the outcome of the k-th `quick_recovery`
(driver teardown, re-setup, navigation and health probe, abstracted as one
boolean as in the source's return value). -/
structure RecoveryEnv where
  funcResult : Nat → Except String Unit
  healthOk : Nat → Bool
  recoverOk : Nat → Bool

/-- Observable outcome of one `execute_with_recovery` run: the returned value
or raised error, and how many times the wrapped operation, the health probe and
`quick_recovery` ran. -/
structure ExecOutcome where
  result : Except String Unit
  funcCalls : Nat
  healthChecks : Nat
  recoveryCalls : Nat
deriving Repr

/-- The retry loop of `BaseCrawler.execute_with_recovery`, one recursive step
per `for attempt in range(max_recovery_attempts)` iteration. On an attempt
with `attempt > 0` a failing health probe raises before the operation runs;
any caught error breaks immediately when the attempt budget is reached or the
error is not session-fatal, and otherwise runs `quick_recovery` once,
continuing only on its success. The fuel argument counts the remaining loop
iterations; when it runs out the loop re-raises the last error. -/
def execAttempts (env : RecoveryEnv) (maxAttempts : Nat) :
    Nat → Nat → Nat → Nat → Nat → Option String → ExecOutcome
  | 0, _, fc, hc, rc, lastErr => ⟨.error (lastErr.getD ""), fc, hc, rc⟩
  | fuel + 1, attempt, fc, hc, rc, _ =>
    if attempt > 0 && !env.healthOk hc then
      let e := "Browser health check failed"
      if (attempt : Int) ≥ (maxAttempts : Int) - 1 then ⟨.error e, fc, hc + 1, rc⟩
      else if is_session_error e then
        if env.recoverOk rc then
          execAttempts env maxAttempts fuel (attempt + 1) fc (hc + 1) (rc + 1) (some e)
        else ⟨.error e, fc, hc + 1, rc + 1⟩
      else ⟨.error e, fc, hc + 1, rc⟩
    else
      let hc1 := if attempt > 0 then hc + 1 else hc
      match env.funcResult fc with
      | .ok _ => ⟨.ok (), fc + 1, hc1, rc⟩
      | .error e =>
        if (attempt : Int) ≥ (maxAttempts : Int) - 1 then ⟨.error e, fc + 1, hc1, rc⟩
        else if is_session_error e then
          if env.recoverOk rc then
            execAttempts env maxAttempts fuel (attempt + 1) (fc + 1) hc1 (rc + 1) (some e)
          else ⟨.error e, fc + 1, hc1, rc + 1⟩
        else ⟨.error e, fc + 1, hc1, rc⟩

/-- Model of `BaseCrawler.execute_with_recovery`: with recovery disabled the
wrapped operation is called once directly; otherwise the bounded retry loop
runs with the configured attempt budget. -/
def execute_with_recovery (env : RecoveryEnv) (recovery_enabled : Bool)
    (max_recovery_attempts : Nat) : ExecOutcome :=
  if !recovery_enabled then
    match env.funcResult 0 with
    | .ok _ => ⟨.ok (), 1, 0, 0⟩
    | .error e => ⟨.error e, 1, 0, 0⟩
  else
    execAttempts env max_recovery_attempts max_recovery_attempts 0 0 0 0 none

/-- Claim C3: with recovery enabled and the default budget of 2 attempts, the
executor invokes the wrapped operation at most twice and `quick_recovery` at
most once; and when the first invocation fails with an error whose message
matches none of the session-fatal markers, that error propagates immediately —
one operation call, no health probe, no recovery. -/
theorem execute_with_recovery_budget (env : RecoveryEnv) :
    ((execute_with_recovery env true 2).funcCalls ≤ 2 ∧
      (execute_with_recovery env true 2).recoveryCalls ≤ 1) ∧
    (∀ msg, env.funcResult 0 = .error msg → is_session_error msg = false →
      execute_with_recovery env true 2 = ⟨.error msg, 1, 0, 0⟩) := by
  have hrun : execute_with_recovery env true 2 = execAttempts env 2 2 0 0 0 0 none := rfl
  constructor
  · rw [hrun]
    cases h0 : env.funcResult 0 with
    | ok u => simp [execAttempts, h0]
    | error e =>
      by_cases hs : is_session_error e = true
      · by_cases hr : env.recoverOk 0 = true
        · by_cases hh : env.healthOk 0 = true
          · cases h1 : env.funcResult 1 with
            | ok u => simp [execAttempts, h0, hs, hr, hh, h1]
            | error e2 => simp [execAttempts, h0, hs, hr, hh, h1]
          · simp [execAttempts, h0, hs, hr, hh]
        · simp [execAttempts, h0, hs, hr]
      · simp [execAttempts, h0, hs]
  · intro msg h0 hs
    rw [hrun]
    simp [execAttempts, h0, hs]

/-- Claim C3 witness: an environment whose wrapped operation always raises
"timeout" (not a session-fatal marker) propagates after exactly one invocation
with no recovery attempt. -/
theorem execute_with_recovery_budget_witness :
    execute_with_recovery
        ⟨fun _ => .error "timeout", fun _ => true, fun _ => true⟩ true 2 =
      ⟨.error "timeout", 1, 0, 0⟩ :=
  (execute_with_recovery_budget
    ⟨fun _ => .error "timeout", fun _ => true, fun _ => true⟩).2 "timeout" rfl
    (by decide)

/-! ## Paginated extraction (`src/crawler/crawler.py`) -/

/-- The `content` payload of one in-page listing item. -/
structure PageContent where
  title : String
  address : String
  category : String
  tel : String
  distance : String
deriving Repr, DecidableEq

/-- One element of the in-page `resultMinsJson` array; a null item or an item
without a `content` field is modelled as `content = none`. -/
structure PageItem where
  content : Option PageContent
deriving Repr, DecidableEq

/-- One extracted listing record as built by the in-page batch script. -/
structure StoreRec where
  type : String
  name : String
  address : String
  category : String
  phone : String
  distance : String
deriving Repr, DecidableEq

/-- The record built from one item by the batch-extraction script, or none when
the item is skipped (missing content, empty name or empty address). -/
def itemRec? (it : PageItem) : Option StoreRec :=
  match it.content with
  | some c =>
    if !(c.title == "") && !(c.address == "") then
      some ⟨"소비쿠폰", c.title, c.address, c.category, c.tel, c.distance⟩
    else none
  | none => none

/-- Model of `Crawler.extract_batch_data`: the in-page script walks indices
`start_idx ≤ i < min(end_idx, length)` and keeps the valid records. -/
def extract_batch_data (data : List PageItem) (start_idx end_idx : Nat) :
    List StoreRec :=
  ((data.take (min end_idx data.length)).drop start_idx).filterMap itemRec?

/-- The batch index ranges issued by `Crawler.extract_data_with_pagination`:
batch k covers `[k*B, min((k+1)*B, total_count))`, for
`k < (total_count + B - 1) / B` batches. -/
def paginationRanges (total_count batch_size : Nat) : List (Nat × Nat) :=
  (List.range ((total_count + batch_size - 1) / batch_size)).map
    (fun k => (k * batch_size, min (k * batch_size + batch_size) total_count))

/-- Model of `Crawler.extract_data_with_pagination` (its `results` list): the
reported total is the in-page array length; zero means an early empty return,
otherwise the per-batch extractions are concatenated in order. -/
def extract_data_with_pagination (data : List PageItem) (batch_size : Nat) :
    List StoreRec :=
  if data.length = 0 then []
  else
    ((paginationRanges data.length batch_size).map
      (fun p => extract_batch_data data p.1 p.2)).flatten

lemma take_min_length {α : Type} (l : List α) (t : Nat) :
    l.take (min t l.length) = l.take t := by
  rcases le_total t l.length with h | h
  · rw [min_eq_left h]
  · rw [min_eq_right h, List.take_length, List.take_of_length_le h]

lemma ceil_mul_ge (N B : Nat) (hB : 0 < B) : N ≤ (N + B - 1) / B * B := by
  have hdm := Nat.div_add_mod (N + B - 1) B
  have hlt := Nat.mod_lt (N + B - 1) hB
  have hc : (N + B - 1) / B * B = B * ((N + B - 1) / B) := Nat.mul_comm _ _
  omega

lemma chunk_flatten {α : Type} (B : Nat) :
    ∀ (nb : Nat) (l : List α), l.length ≤ nb * B → 0 < B →
      ((List.range nb).map (fun k => (l.drop (k * B)).take B)).flatten = l := by
  intro nb
  induction nb with
  | zero =>
    intro l hl _
    rw [Nat.zero_mul] at hl
    have hl0 : l = [] := List.length_eq_zero.mp (Nat.le_zero.mp hl)
    simp [hl0]
  | succ n ih =>
    intro l hl hB
    rw [List.range_succ_eq_map, List.map_cons, List.map_map, List.flatten_cons]
    have hmap : (List.map ((fun k => (l.drop (k * B)).take B) ∘ Nat.succ)
        (List.range n)) =
        List.map (fun k => ((l.drop B).drop (k * B)).take B) (List.range n) := by
      apply List.map_congr_left
      intro k _
      simp only [Function.comp_apply]
      have harith : k.succ * B = B + k * B := by
        rw [Nat.succ_mul]
        omega
      rw [harith, ← List.drop_drop]
    have hlen : (l.drop B).length ≤ n * B := by
      have hsucc : (n + 1) * B = n * B + B := Nat.succ_mul n B
      rw [List.length_drop]
      omega
    rw [hmap, ih (l.drop B) hlen hB]
    rw [Nat.zero_mul, List.drop_zero, List.take_append_drop]

lemma range_drop_eq (N m : Nat) : (List.range N).drop m = List.range' m (N - m) := by
  apply List.ext_getElem
  · simp
  · intro i h1 h2
    rw [List.getElem_drop, List.getElem_range, List.getElem_range']
    omega

lemma range'_take_eq (s n t : Nat) :
    (List.range' s n).take t = List.range' s (min t n) := by
  apply List.ext_getElem
  · simp
  · intro i h1 h2
    rw [List.getElem_take, List.getElem_range', List.getElem_range']

lemma filterMap_length_of_isSome {α β : Type} (f : α → Option β) :
    ∀ (l : List α), (∀ x ∈ l, (f x).isSome = true) →
      (l.filterMap f).length = l.length := by
  intro l
  induction l with
  | nil => intro _; rfl
  | cons a t ih =>
    intro h
    have ha := h a (by simp)
    rw [List.filterMap_cons]
    cases hf : f a with
    | none => rw [hf] at ha; simp at ha
    | some b =>
      simp only [hf, List.length_cons]
      rw [ih (fun x hx => h x (by simp [hx]))]

lemma extract_pagination_eq (data : List PageItem) (B : Nat) (hB : 0 < B) :
    extract_data_with_pagination data B = data.filterMap itemRec? := by
  unfold extract_data_with_pagination
  split_ifs with h0
  · rw [List.length_eq_zero.mp h0]
    rfl
  · have hmapeq : (paginationRanges data.length B).map
        (fun p => extract_batch_data data p.1 p.2) =
        ((List.range ((data.length + B - 1) / B)).map
          (fun k => (data.drop (k * B)).take B)).map (List.filterMap itemRec?) := by
      unfold paginationRanges
      rw [List.map_map, List.map_map]
      apply List.map_congr_left
      intro k _
      simp only [Function.comp_apply]
      unfold extract_batch_data
      refine congrArg (List.filterMap itemRec?) ?_
      have hmin : min (min (k * B + B) data.length) data.length =
          min (k * B + B) data.length := by omega
      rw [hmin, List.drop_take]
      have hsub : min (k * B + B) data.length - k * B =
          min B ((data.drop (k * B)).length) := by
        rw [List.length_drop]
        omega
      rw [hsub, take_min_length]
    rw [hmapeq, ← List.filterMap_flatten,
      chunk_flatten B ((data.length + B - 1) / B) data
        (ceil_mul_ge data.length B hB) hB]

/-- Claim C8: for batch size 200 and every reported count N in
0, 1, 199, 200, 501, 1000, the paginated extraction issues ceil(N/200) batch
requests whose index ranges `[k*200, min((k+1)*200, N))` concatenate to exactly
the index list `[0, ..., N-1]` (pairwise disjoint, covering exactly once), and
on a page of N well-formed items the union of all extracted batches has exactly
N elements. -/
theorem pagination_partition (N : Nat)
    (hN : N ∈ [0, 1, 199, 200, 501, 1000]) (data : List PageItem)
    (hlen : data.length = N)
    (hvalid : ∀ it ∈ data, (itemRec? it).isSome = true) :
    (paginationRanges N 200).length = (N + 200 - 1) / 200 ∧
    ((paginationRanges N 200).map (fun p => List.range' p.1 (p.2 - p.1))).flatten =
      List.range N ∧
    (extract_data_with_pagination data 200).length = N := by
  refine ⟨by simp [paginationRanges], ?_, ?_⟩
  · unfold paginationRanges
    rw [List.map_map]
    have hmapeq : ((fun p : Nat × Nat => List.range' p.1 (p.2 - p.1)) ∘
        (fun k => (k * 200, min (k * 200 + 200) N))) =
        fun k => ((List.range N).drop (k * 200)).take 200 := by
      funext k
      simp only [Function.comp_apply]
      rw [range_drop_eq, range'_take_eq]
      congr 1
      omega
    rw [hmapeq]
    exact chunk_flatten 200 ((N + 200 - 1) / 200) (List.range N)
      (by simpa using ceil_mul_ge N 200 (by norm_num)) (by norm_num)
  · rw [extract_pagination_eq data 200 (by norm_num),
      filterMap_length_of_isSome itemRec? data hvalid, hlen]

/-- Claim C8 witness: the instance N = 1 on a one-item page — one batch request
covering index 0, and exactly one extracted record. -/
theorem pagination_partition_witness :
    (paginationRanges 1 200).length = (1 + 200 - 1) / 200 ∧
    ((paginationRanges 1 200).map (fun p => List.range' p.1 (p.2 - p.1))).flatten =
      List.range 1 ∧
    (extract_data_with_pagination
      [⟨some ⟨"가게", "서울 강남구 역삼동", "기타", "", ""⟩⟩] 200).length = 1 :=
  pagination_partition 1 (by decide)
    [⟨some ⟨"가게", "서울 강남구 역삼동", "기타", "", ""⟩⟩] rfl (by decide)

/-! ## Map API (`src/map_api/`) -/

/-- Hangul-syllable test for the regex class `[가-힣]`. -/
def isHangul (c : Char) : Bool := 0xAC00 ≤ c.val.toNat && c.val.toNat ≤ 0xD7A3

/-- Latin-letter-or-whitespace test for the regex class `[A-Za-z\s]`. -/
def isLatinOrWs (c : Char) : Bool :=
  (('A' ≤ c && c ≤ 'Z') || ('a' ≤ c && c ≤ 'z')) || pyIsWs c

/-- Model of `re.sub(r'\([^)]*\)', '', s)`: the scanner buffers from an opening
parenthesis up to the first closing one and discards the span; a parenthesis
never closed is emitted verbatim at the end. -/
def rpAux : List Char → Option (List Char) → List Char
  | [], none => []
  | [], some buf => buf.reverse
  | c :: rest, none =>
    if c = '(' then rpAux rest (some [c]) else c :: rpAux rest none
  | c :: rest, some buf =>
    if c = ')' then rpAux rest none else rpAux rest (some (c :: buf))

/-- Model of `re.sub(r'\([^)]*\)', '', s)`. -/
def removeParens (l : List Char) : List Char := rpAux l none

/-- Index of the last occurrence of "상가" in a character list (the greedy
`[가-힣]*` backtracks to the rightmost "상가" inside the Hangul run). -/
def lastSanggaIdx : List Char → Option Nat
  | [] => none
  | c :: rest =>
    match lastSanggaIdx rest with
    | some j => some (j + 1)
    | none => if ['상', '가'].isPrefixOf (c :: rest) then some 0 else none

/-- The remainder after one match of `[가-힣]*상가\s*\S*` anchored at the head
of `l` (head is Hangul and the maximal Hangul run contains "상가"): everything
up to and including the rightmost "상가" of the run is consumed, then a
whitespace run, then a non-whitespace run. -/
def afterSangga (l : List Char) : List Char :=
  let run := l.takeWhile isHangul
  let restAll := l.dropWhile isHangul
  match lastSanggaIdx run with
  | some j =>
    let tail := (run.drop (j + 2)) ++ restAll
    (tail.dropWhile pyIsWs).dropWhile (fun c => !pyIsWs c)
  | none => l

/-- Fuel-bounded scanner for `re.sub(r'[가-힣]*상가\s*\S*', '', s)`: a match
starts at the leftmost Hangul character whose maximal run contains "상가". -/
def sgScanF : Nat → List Char → List Char
  | 0, l => l
  | _ + 1, [] => []
  | fuel + 1, c :: rest =>
    if isHangul c && isSubChars ['상', '가'] ((c :: rest).takeWhile isHangul) then
      sgScanF fuel (afterSangga (c :: rest))
    else c :: sgScanF fuel rest

/-- Shared tail handling for the end-anchored `\s+...$` building-noise
patterns: `r` is the reversed remainder once the core matched; the match
requires at least one whitespace character before the core, and consumes the
whole whitespace run. `orig` is returned unchanged when the pattern fails. -/
def dropWsPlusRev (r : List Char) (orig : List Char) : List Char :=
  match r with
  | d :: _ => if pyIsWs d then (r.dropWhile pyIsWs).reverse else orig
  | [] => orig

/-- Model of `re.sub(r'\s+지하\d*$', '', s)`. -/
def subJiha (l : List Char) : List Char :=
  match l.reverse.dropWhile Char.isDigit with
  | '하' :: '지' :: r2 => dropWsPlusRev r2 l
  | _ => l

/-- Model of `re.sub(r'\s+\d+X$', '', s)` for a one-character unit suffix X
(used with 층 and 호). -/
def subWsDigitsChar (l : List Char) (suf : Char) : List Char :=
  match l.reverse with
  | c :: r1 =>
    if c = suf then
      match r1 with
      | d :: _ => if d.isDigit then dropWsPlusRev (r1.dropWhile Char.isDigit) l else l
      | [] => l
    else l
  | [] => l

/-- Model of `re.sub(r'\s+[A-Z]\d*호$', '', s)`. -/
def subUnitLetter (l : List Char) : List Char :=
  match l.reverse with
  | '호' :: r1 =>
    match r1.dropWhile Char.isDigit with
    | u :: r3 => if 'A' ≤ u && u ≤ 'Z' then dropWsPlusRev r3 l else l
    | [] => l
  | _ => l

/-- Model of `re.sub(r'\s+\d+\.\d+호$', '', s)`. -/
def subUnitDecimal (l : List Char) : List Char :=
  match l.reverse with
  | '호' :: r1 =>
    match r1 with
    | d1 :: _ =>
      if d1.isDigit then
        match r1.dropWhile Char.isDigit with
        | '.' :: r2 =>
          match r2 with
          | d2 :: _ =>
            if d2.isDigit then dropWsPlusRev (r2.dropWhile Char.isDigit) l else l
          | [] => l
        | _ => l
      else l
    | [] => l
  | _ => l

/-- Model of `re.match(r'^\d+(-\d+)?$', part)`: a bare lot number. -/
def numTokenFull (s : String) : Bool :=
  let d1 := s.data.takeWhile Char.isDigit
  let r := s.data.dropWhile Char.isDigit
  !d1.isEmpty &&
    (r.isEmpty ||
      (match r with
       | '-' :: r2 => !r2.isEmpty && r2.all Char.isDigit
       | _ => false))

/-- Model of `re.match(r'^(\d+(-\d+)?)', part)`: the leading lot-number group,
when the token starts with a digit. -/
def numTokenPref (s : String) : Option String :=
  let d1 := s.data.takeWhile Char.isDigit
  if d1.isEmpty then none
  else
    match s.data.dropWhile Char.isDigit with
    | '-' :: r2 =>
      let d2 := r2.takeWhile Char.isDigit
      if d2.isEmpty then some (String.mk d1)
      else some (String.mk (d1 ++ '-' :: d2))
    | _ => some (String.mk d1)

/-- The token-filtering loop of `clean_address_for_search` ("번지만 남기기"):
keep town-suffix tokens, keep and stop at a bare lot number, keep digit-free
tokens, keep the leading lot-number prefix of a digit-leading token and stop,
and drop tokens whose digits start elsewhere. -/
def addrTokenLoop : List String → List String
  | [] => []
  | part :: rest =>
    if townSuffixes.any (fun suf => isSub suf part) then part :: addrTokenLoop rest
    else if numTokenFull part then [part]
    else if !hasDigit part then part :: addrTokenLoop rest
    else
      match numTokenPref part with
      | some np => [np]
      | none => addrTokenLoop rest

/-- Model of `BaseMapAPI.clean_address_for_search`: strip, remove bracketed
spans, remove the building-noise patterns in source order, then keep only the
region/lot tokens. -/
def clean_address_for_search (address : String) : String :=
  let c0 := (pyStrip address).data
  let c1 := removeParens c0
  let c2 := sgScanF c1.length c1
  let c3 := subJiha c2
  let c4 := subWsDigitsChar c3 '층'
  let c5 := subUnitLetter c4
  let c6 := subUnitDecimal c5
  let c7 := subWsDigitsChar c6 '호'
  joinSp (addrTokenLoop (pySplit (String.mk c7)))

/-- Fuel-bounded model of `re.sub(pat, '', s)` for a fixed non-empty literal
pattern: every occurrence is removed left to right. -/
def removeAllAux (pat : List Char) : Nat → List Char → List Char
  | 0, l => l
  | _ + 1, [] => []
  | fuel + 1, c :: rest =>
    if pat.isPrefixOf (c :: rest) then removeAllAux pat fuel ((c :: rest).drop pat.length)
    else c :: removeAllAux pat fuel rest

/-- Fuel-bounded model of `re.sub(pat + r'\s*', '', s)` for a fixed non-empty
literal pattern followed by a greedy whitespace run. -/
def removeAllWsAux (pat : List Char) : Nat → List Char → List Char
  | 0, l => l
  | _ + 1, [] => []
  | fuel + 1, c :: rest =>
    if pat.isPrefixOf (c :: rest) then
      removeAllWsAux pat fuel (((c :: rest).drop pat.length).dropWhile pyIsWs)
    else c :: removeAllWsAux pat fuel rest

/-- Model of `re.sub(r'\s*CORE$', '', s, flags=IGNORECASE)` for a fixed literal
core compared case-insensitively (`core` is given lowercased). -/
def subWsOptEndCI (core : List Char) (l : List Char) : List Char :=
  let rev := l.reverse
  if core.reverse.isPrefixOf (rev.map Char.toLower) then
    ((rev.drop core.length).dropWhile pyIsWs).reverse
  else l

/-- Model of `re.sub(r'\s*CORE\.?$', '', s, flags=IGNORECASE)`: the core with
an optional trailing dot. -/
def subWsOptEndDotCI (core : List Char) (l : List Char) : List Char :=
  match l.reverse with
  | '.' :: r1 =>
    if core.reverse.isPrefixOf (r1.map Char.toLower) then
      ((r1.drop core.length).dropWhile pyIsWs).reverse
    else subWsOptEndCI core l
  | _ => subWsOptEndCI core l

/-- Fuel-bounded model of `re.sub(r'\([A-Za-z\s]+\)', '', s)`: bracketed spans
of at least one Latin letter or whitespace character. -/
def removeLatinParens : Nat → List Char → List Char
  | 0, l => l
  | _ + 1, [] => []
  | fuel + 1, c :: rest =>
    if c = '(' then
      match h : rest.dropWhile isLatinOrWs with
      | ')' :: after =>
        if (rest.takeWhile isLatinOrWs).isEmpty then c :: removeLatinParens fuel rest
        else removeLatinParens fuel after
      | _ => c :: removeLatinParens fuel rest
    else c :: removeLatinParens fuel rest

/-- Model of `IntegratedMapAPI.clean_store_name`: the eleven corporate-noise
patterns applied in source order, then whitespace collapsed to single spaces
and stripped (realised as split-and-rejoin). -/
def clean_store_name (store_name : String) : String :=
  let n0 := (pyStrip store_name).data
  let n1 := removeAllAux "(주)".data n0.length n0
  let n2 := removeAllAux "(株)".data n1.length n1
  let n3 := removeAllWsAux "주식회사".data n2.length n2
  let n4 := removeAllWsAux "㈜".data n3.length n3
  let n5 := subWsOptEndCI "회사".data n4
  let n6 := subWsOptEndCI "코퍼레이션".data n5
  let n7 := subWsOptEndCI "corporation".data n6
  let n8 := subWsOptEndDotCI "corp".data n7
  let n9 := subWsOptEndDotCI "inc".data n8
  let n10 := subWsOptEndDotCI "ltd".data n9
  let n11 := removeLatinParens n10.length n10
  joinSp (pySplit (String.mk n11))

/-- The dedup-preserving-order loop at the end of
`create_search_scenarios_with_reduction`: strip each scenario, drop empties,
keep first occurrences (`seen` is the membership set). -/
def pyUniqueAux (seen : List String) : List String → List String
  | [] => []
  | s :: rest =>
    let s2 := pyStrip s
    if !(s2 == "") && !(seen.contains s2) then s2 :: pyUniqueAux (s2 :: seen) rest
    else pyUniqueAux seen rest

/-- Order-preserving dedup of stripped non-empty scenarios. -/
def pyUnique (l : List String) : List String := pyUniqueAux [] l

/-- Model of `create_search_scenarios_with_reduction` (textually identical in
`KakaoMapAPI` and `NaverSearchAPI`): the full query, the progressively
truncated queries for i = len-1 down to 1, the bare name, then the dedup
loop. -/
def create_search_scenarios_with_reduction (store_name address : String) :
    List String :=
  let address_parts := pySplit (pyStrip address)
  let scenarios :=
    (if address_parts.isEmpty then []
     else [store_name ++ " " ++ joinSp address_parts]) ++
    ((List.range (address_parts.length - 1)).reverse.map
      (fun i => store_name ++ " " ++ joinSp (address_parts.take (i + 1)))) ++
    [store_name]
  pyUnique scenarios

/-- Model of `NaverSearchAPI._is_similar_town`: digit-stripped equality. -/
def naver_is_similar_town (t1 t2 : String) : Bool :=
  stripDigits t1 == stripDigits t2

/-- Model of `KakaoMapAPI._is_similar_town`: digit-stripped equality, else
first-two-character agreement of the digit-stripped forms. -/
def kakao_is_similar_town (t1 t2 : String) : Bool :=
  let clean1 := stripDigits t1
  let clean2 := stripDigits t2
  if clean1 == clean2 then true
  else if 2 ≤ clean1.length && 2 ≤ clean2.length then
    clean1.data.take 2 == clean2.data.take 2
  else false

/-- Model of `NaverSearchAPI.validate_address_match`: province and city must
match exactly (as parsed Optionals); towns present on both sides must match
exactly or digit-stripped, otherwise the result is rejected. -/
def naver_validate_address_match (original_address api_address : String) : Bool :=
  let o := parse_address original_address
  let a := parse_address api_address
  if o.province ≠ a.province then false
  else if o.city ≠ a.city then false
  else
    match o.town, a.town with
    | some t1, some t2 =>
      if !(t1 == "") && !(t2 == "") then
        if t1 == t2 then true
        else if naver_is_similar_town t1 t2 then true
        else false
      else true
    | _, _ => true

/-- Model of `KakaoMapAPI.validate_address_match`: as the Naver variant, but a
town mismatch is allowed (lot-address comparison is lenient: warn and pass). -/
def kakao_validate_address_match (original_address api_address : String) : Bool :=
  let o := parse_address original_address
  let a := parse_address api_address
  if o.province ≠ a.province then false
  else if o.city ≠ a.city then false
  else
    match o.town, a.town with
    | some t1, some t2 =>
      if !(t1 == "") && !(t2 == "") then
        if t1 == t2 then true
        else if kakao_is_similar_town t1 t2 then true
        else true
      else true
    | _, _ => true

/-- One geocoding-provider hit: the coordinate payload returned by a successful
`get_coordinates_by_keyword` call (`lot_address` is the Naver `address` /
Kakao `address_name` field, `road_address` the Naver `roadAddress`-derived /
Kakao `road_address_name` field). -/
structure ApiPlace where
  latitude : ℚ
  longitude : ℚ
  place_name : String
  lot_address : String
  road_address : String
  compare_address : String
  final_address : String
  category : String
deriving Repr, DecidableEq

/-- The `' → '.join` trace separator at the character-list level. -/
def joinArrowChars : List (List Char) → List Char
  | [] => []
  | [t] => t
  | t :: u :: rest => t ++ ' ' :: '→' :: ' ' :: joinArrowChars (u :: rest)

/-- Model of Python `' → '.join(queries)`. -/
def joinArrow (ts : List String) : String :=
  String.mk (joinArrowChars (ts.map String.data))

/-- The result dict of `search_store_location` / `IntegratedMapAPI`:
`api_store_name` and `api_store_addr` are only set by the integrated layer. -/
structure SearchOutcome where
  found : Bool
  search_type : String
  query : String
  coordinates : Option ApiPlace
  api_used : String
  error : Option String
  api_store_name : Option String
  api_store_addr : Option String
deriving Repr, DecidableEq

/-- The scenario loop shared by both `search_store_location` methods: issue
each query in order against the keyword oracle, skip empty queries, accept the
first found result that passes the given address validation, and return the
accepted (query, 1-based index, place) or none on exhaustion. -/
def scenarioLoop (oracle : String → Option ApiPlace) (validate : String → Bool) :
    List String → Nat → Option (String × Nat × ApiPlace)
  | [], _ => none
  | q :: rest, i =>
    if q == "" then scenarioLoop oracle validate rest (i + 1)
    else
      match oracle q with
      | some place =>
        if validate place.compare_address then some (q, i, place)
        else scenarioLoop oracle validate rest (i + 1)
      | none => scenarioLoop oracle validate rest (i + 1)

/-- Model of `NaverSearchAPI.search_store_location`: clean the address, build
the reduction scenarios, run the loop with the strict Naver validation; on a
hit the stored address prefers the road address, on exhaustion the failure
result carries the full query trace. -/
def naver_search_store_location (oracle : String → Option ApiPlace)
    (store_name category address : String) : SearchOutcome :=
  let clean_address := clean_address_for_search address
  let scenarios := create_search_scenarios_with_reduction store_name clean_address
  match scenarioLoop oracle (naver_validate_address_match address) scenarios 1 with
  | some (q, i, place) =>
    { found := true
      search_type := "naver_reduction_" ++ toString i
      query := q
      coordinates := some { place with
        final_address := if place.road_address == "" then place.lot_address
                         else place.road_address }
      api_used := "naver"
      error := none
      api_store_name := none
      api_store_addr := none }
  | none =>
    { found := false
      search_type := "naver_reduction_failed"
      query := joinArrow scenarios
      coordinates := none
      api_used := "naver"
      error := none
      api_store_name := none
      api_store_addr := none }

/-- Model of `KakaoMapAPI.search_store_location`: as the Naver variant with the
lenient Kakao validation and Kakao field names. -/
def kakao_search_store_location (oracle : String → Option ApiPlace)
    (store_name category address : String) : SearchOutcome :=
  let clean_address := clean_address_for_search address
  let scenarios := create_search_scenarios_with_reduction store_name clean_address
  match scenarioLoop oracle (kakao_validate_address_match address) scenarios 1 with
  | some (q, i, place) =>
    { found := true
      search_type := "kakao_reduction_" ++ toString i
      query := q
      coordinates := some { place with
        final_address := if place.road_address == "" then place.lot_address
                         else place.road_address }
      api_used := "kakao"
      error := none
      api_store_name := none
      api_store_addr := none }
  | none =>
    { found := false
      search_type := "kakao_reduction_failed"
      query := joinArrow scenarios
      coordinates := none
      api_used := "kakao"
      error := none
      api_store_name := none
      api_store_addr := none }

/-- The all-failed result of `IntegratedMapAPI.search_location`: note that its
query field carries only a fixed marker plus the cleaned store name, not the
per-provider query traces. -/
def searchAllFailed (store_name address cleaned_store_name : String) :
    SearchOutcome :=
  { found := false
    search_type := "all_failed"
    query := "네이버+카카오 모두 실패: " ++ cleaned_store_name
    coordinates := none
    api_used := "none"
    error := none
    api_store_name := some store_name
    api_store_addr := some address }

/-- The Kakao backup half of `IntegratedMapAPI.search_location`. -/
def searchLocationKakao (kakao_api : Option (String → Option ApiPlace))
    (store_name category address cleaned_store_name : String) : SearchOutcome :=
  match kakao_api with
  | some oracle =>
    let kakao_result :=
      kakao_search_store_location oracle cleaned_store_name category address
    if kakao_result.found then
      match kakao_result.coordinates with
      | some c =>
        { kakao_result with
          api_store_name := some c.place_name
          api_store_addr := some c.road_address }
      | none =>
        { kakao_result with
          api_store_name := some store_name
          api_store_addr := some address }
    else searchAllFailed store_name address cleaned_store_name
  | none => searchAllFailed store_name address cleaned_store_name

/-- Model of `IntegratedMapAPI.search_location`: clean the store name, try the
Naver provider first (when configured), fall back to Kakao, and otherwise
return the all-failed result. -/
def search_location (naver_api kakao_api : Option (String → Option ApiPlace))
    (store_name category address : String) : SearchOutcome :=
  let cleaned_store_name := clean_store_name store_name
  match naver_api with
  | some oracle =>
    let naver_result :=
      naver_search_store_location oracle cleaned_store_name category address
    if naver_result.found then
      match naver_result.coordinates with
      | some c =>
        { naver_result with
          api_store_name := some c.place_name
          api_store_addr :=
            some (if pyStrip c.final_address == "" then address
                  else pyStrip c.final_address) }
      | none =>
        { naver_result with
          api_store_name := some store_name
          api_store_addr := some address }
    else searchLocationKakao kakao_api store_name category address cleaned_store_name
  | none => searchLocationKakao kakao_api store_name category address cleaned_store_name

/-! ## Helper lemmas for the scenario-construction claim -/

lemma splitWsAux_tokens :
    ∀ (l acc : List Char), (∀ c ∈ acc, pyIsWs c = false) →
      ∀ t ∈ splitWsAux l acc, t ≠ [] ∧ ∀ c ∈ t, pyIsWs c = false := by
  intro l
  induction l with
  | nil =>
    intro acc hacc t ht
    unfold splitWsAux at ht
    by_cases he : acc.isEmpty
    · simp [he] at ht
    · rw [if_neg he, List.mem_singleton] at ht
      subst ht
      refine ⟨?_, ?_⟩
      · simp only [ne_eq, List.reverse_eq_nil_iff]
        simpa [List.isEmpty_iff] using he
      · intro c hc
        exact hacc c (List.mem_reverse.mp hc)
  | cons a rest ih =>
    intro acc hacc t ht
    unfold splitWsAux at ht
    by_cases hw : pyIsWs a
    · rw [if_pos hw] at ht
      by_cases he : acc.isEmpty
      · rw [if_pos he] at ht
        exact ih [] (by simp) t ht
      · rw [if_neg he, List.mem_cons] at ht
        rcases ht with ht | ht
        · subst ht
          refine ⟨?_, ?_⟩
          · simp only [ne_eq, List.reverse_eq_nil_iff]
            simpa [List.isEmpty_iff] using he
          · intro c hc
            exact hacc c (List.mem_reverse.mp hc)
        · exact ih [] (by simp) t ht
    · rw [if_neg hw] at ht
      refine ih (a :: acc) ?_ t ht
      intro c hc
      rcases List.mem_cons.mp hc with hc | hc
      · subst hc
        simpa using hw
      · exact hacc c hc

lemma pySplit_tokens (s : String) :
    ∀ t ∈ pySplit s, t.data ≠ [] ∧ ∀ c ∈ t.data, pyIsWs c = false := by
  intro t ht
  unfold pySplit splitWsChars at ht
  obtain ⟨tok, htok, rfl⟩ := List.mem_map.mp ht
  exact splitWsAux_tokens s.data [] (by simp) tok htok

lemma joinSpChars_concat (xs : List (List Char)) (x : List Char) :
    joinSpChars (xs ++ [x]) =
      if xs.isEmpty then x else joinSpChars xs ++ ' ' :: x := by
  induction xs with
  | nil => rfl
  | cons t ts ih =>
    cases ts with
    | nil => rfl
    | cons u us =>
      have : ((t :: u :: us) ++ [x]) = t :: ((u :: us) ++ [x]) := rfl
      rw [this]
      show t ++ ' ' :: joinSpChars ((u :: us) ++ [x]) = _
      rw [ih]
      simp [joinSpChars]

lemma joinSpChars_ends_nonws (ts : List (List Char)) (hne : ts ≠ [])
    (htok : ∀ t ∈ ts, t ≠ [] ∧ ∀ c ∈ t, pyIsWs c = false) :
    ∃ J c, joinSpChars ts = J ++ [c] ∧ pyIsWs c = false := by
  induction ts with
  | nil => cases hne rfl
  | cons t us ih =>
    cases us with
    | nil =>
      obtain ⟨h1, h2⟩ := htok t (by simp)
      refine ⟨t.dropLast, t.getLast h1, ?_, ?_⟩
      · show t = t.dropLast ++ [t.getLast h1]
        exact (List.dropLast_append_getLast h1).symm
      · exact h2 _ (List.getLast_mem h1)
    | cons u vs =>
      obtain ⟨J, c, hJ, hc⟩ := ih (by simp) (fun x hx => htok x (by simp [hx]))
      refine ⟨t ++ ' ' :: J, c, ?_, hc⟩
      show t ++ ' ' :: joinSpChars (u :: vs) = (t ++ ' ' :: J) ++ [c]
      rw [hJ]
      simp

lemma stripChars_append_sep (L T : List Char) (J : List Char) (c : Char)
    (hL : L.dropWhile pyIsWs ≠ []) (hT : T = J ++ [c]) (hc : pyIsWs c = false) :
    stripChars (L ++ ' ' :: T) = L.dropWhile pyIsWs ++ ' ' :: T := by
  subst hT
  unfold stripChars
  rw [List.dropWhile_append]
  have hne : (L.dropWhile pyIsWs).isEmpty = false := by
    simpa [List.isEmpty_iff] using hL
  rw [if_neg (by simp [hne])]
  rw [List.reverse_append]
  have hrev : (' ' :: (J ++ [c])).reverse = c :: (J.reverse ++ [' ']) := by simp
  rw [hrev]
  have : (c :: (J.reverse ++ [' '])) ++ (L.dropWhile pyIsWs).reverse =
      c :: (J.reverse ++ [' '] ++ (L.dropWhile pyIsWs).reverse) := by simp
  rw [this, List.dropWhile_cons, if_neg (by simp [hc])]
  simp

lemma stripChars_append_space (L : List Char) :
    stripChars (L ++ [' ']) = stripChars L := by
  unfold stripChars
  rw [List.dropWhile_append]
  by_cases hd : (L.dropWhile pyIsWs).isEmpty
  · rw [if_pos hd]
    have hsp : pyIsWs ' ' = true := by decide
    have h1 : List.dropWhile pyIsWs [' '] = [] := by
      simp [List.dropWhile_cons, hsp]
    have h2 : L.dropWhile pyIsWs = [] := by simpa [List.isEmpty_iff] using hd
    rw [h1, h2]
  · rw [if_neg hd]
    rw [List.reverse_append]
    have hsp : pyIsWs ' ' = true := by decide
    have : ([' '] : List Char).reverse = [' '] := rfl
    rw [this]
    have : ([' '] : List Char) ++ (L.dropWhile pyIsWs).reverse =
        ' ' :: (L.dropWhile pyIsWs).reverse := rfl
    rw [this, List.dropWhile_cons, if_pos (by simp [hsp])]

lemma stripChars_length_le_dropWhile (L : List Char) :
    (stripChars L).length ≤ (L.dropWhile pyIsWs).length := by
  unfold stripChars
  rw [List.length_reverse]
  calc ((L.dropWhile pyIsWs).reverse.dropWhile pyIsWs).length
      ≤ (L.dropWhile pyIsWs).reverse.length :=
        (List.dropWhile_sublist _).length_le
    _ = (L.dropWhile pyIsWs).length := List.length_reverse _

lemma pyUniqueAux_eq_map (l : List String) :
    ∀ (seen : List String), (l.map pyStrip).Nodup →
      (∀ s ∈ l, pyStrip s ≠ "") →
      (∀ s ∈ l, seen.contains (pyStrip s) = false) →
      pyUniqueAux seen l = l.map pyStrip := by
  induction l with
  | nil => intro seen _ _ _; rfl
  | cons s rest ih =>
    intro seen hnd hne hseen
    rw [List.map_cons] at hnd
    have hnds := List.nodup_cons.mp hnd
    simp only [pyUniqueAux]
    have hc1 : (pyStrip s == "") = false := by
      simpa [beq_iff_eq] using hne s (by simp)
    have hc2 : seen.contains (pyStrip s) = false := hseen s (by simp)
    rw [hc1, hc2]
    simp only [Bool.not_false, Bool.and_self, if_true]
    rw [List.map_cons]
    congr 1
    apply ih
    · exact hnds.2
    · intro x hx
      exact hne x (by simp [hx])
    · intro x hx
      have hxs : pyStrip x ≠ pyStrip s := by
        intro heq
        exact hnds.1 (heq ▸ List.mem_map_of_mem pyStrip hx)
      have hxseen : seen.contains (pyStrip x) = false := hseen x (by simp [hx])
      rw [Bool.eq_false_iff]
      intro hcont
      have hmem : pyStrip x ∈ pyStrip s :: seen := List.elem_iff.mp hcont
      rcases List.mem_cons.mp hmem with hm | hm
      · exact hxs hm
      · rw [Bool.eq_false_iff] at hxseen
        exact hxseen (List.elem_iff.mpr hm)

lemma joinSpChars_take_succ_lt (toks : List (List Char))
    (htok : ∀ t ∈ toks, t ≠ []) (k : Nat) (hk : k < toks.length) :
    (joinSpChars (toks.take k)).length < (joinSpChars (toks.take (k + 1))).length := by
  rw [List.take_succ]
  have hkget : toks[k]? = some toks[k] := List.getElem?_eq_getElem hk
  rw [hkget]
  have : (some toks[k]).toList = [toks[k]] := rfl
  rw [this, joinSpChars_concat]
  have hkne : toks[k] ≠ [] := htok _ (List.getElem_mem hk)
  by_cases h0 : (toks.take k).isEmpty
  · have : toks.take k = [] := by simpa [List.isEmpty_iff] using h0
    rw [if_pos h0, this]
    show (joinSpChars []).length < _
    have : (joinSpChars []).length = 0 := rfl
    rw [this]
    exact List.length_pos.mpr hkne
  · rw [if_neg h0]
    simp only [List.length_append, List.length_cons]
    omega

lemma joinSpChars_take_lt (toks : List (List Char))
    (htok : ∀ t ∈ toks, t ≠ []) :
    ∀ (m k : Nat), k < m → m ≤ toks.length →
      (joinSpChars (toks.take k)).length < (joinSpChars (toks.take m)).length := by
  intro m
  induction m with
  | zero => intro k hk _; omega
  | succ p ih =>
    intro k hk hm
    rcases Nat.lt_succ_iff_lt_or_eq.mp hk with hk' | hk'
    · exact lt_trans (ih k hk' (by omega)) (joinSpChars_take_succ_lt toks htok p (by omega))
    · subst hk'
      exact joinSpChars_take_succ_lt toks htok k (by omega)

lemma range_reverse_decomp (n : Nat) :
    (List.range (n + 1 + 1)).reverse =
      (n + 1) :: (((List.range n).reverse.map (fun i => i + 1)) ++ [0]) := by
  rw [List.range_succ, List.reverse_append]
  have h1 : ([n + 1] : List Nat).reverse = [n + 1] := rfl
  rw [h1]
  rw [List.range_succ_eq_map, List.reverse_cons, ← List.map_reverse]
  simp [Nat.succ_eq_add_one]

lemma pyStrip_append_space_empty (s : String) :
    pyStrip (s ++ " " ++ joinSp []) = pyStrip s := by
  show String.mk (stripChars (s ++ " " ++ joinSp []).data) = _
  have hd : (s ++ " " ++ joinSp []).data = s.data ++ [' '] := by
    rw [String.data_append, String.data_append]
    show s.data ++ [' '] ++ [] = s.data ++ [' ']
    simp
  rw [hd, stripChars_append_space]
  rfl

lemma scenario_raw_map (store_name : String) (parts : List String) :
    ((if parts.isEmpty then [] else [store_name ++ " " ++ joinSp parts]) ++
        ((List.range (parts.length - 1)).reverse.map
          (fun i => store_name ++ " " ++ joinSp (parts.take (i + 1)))) ++
        [store_name]).map pyStrip =
      (List.range (parts.length + 1)).reverse.map
        (fun k => pyStrip (store_name ++ " " ++ joinSp (parts.take k))) := by
  cases parts with
  | nil =>
    simp [pyStrip_append_space_empty]
  | cons a rest =>
    rw [if_neg (by simp : ¬((a :: rest).isEmpty = true))]
    simp only [List.length_cons, Nat.add_sub_cancel]
    rw [range_reverse_decomp rest.length]
    simp only [List.map_cons, List.map_append, List.map_map, List.singleton_append,
      List.cons_append]
    congr 1
    · have htake : (a :: rest).take (rest.length + 1) = a :: rest := by
        have : rest.length + 1 = (a :: rest).length := rfl
        rw [this, List.take_length]
      rw [htake]
    · simp only [List.map_nil, List.nil_append]
      congr 1
      have htake0 : List.take 0 (a :: rest) = [] := rfl
      rw [htake0, pyStrip_append_space_empty store_name]

/-- Claim C6 (amended): for every store name that is non-empty after stripping
and every cleaned address, the query-scenario list is deterministic and equals
the descending presentation
`[name + tokens[0..n], name + tokens[0..n-1], ..., name + tokens[0..1], name]`
(each later scenario's address portion a proper token-level prefix cut of the
previous one), has no duplicates, ends with the bare stripped name, and starts
with the name followed by all address tokens. -/
theorem create_search_scenarios_spec (store_name address : String)
    (h : pyStrip store_name ≠ "") :
    create_search_scenarios_with_reduction store_name address =
      (List.range ((pySplit (pyStrip address)).length + 1)).reverse.map
        (fun k => pyStrip (store_name ++ " " ++
          joinSp ((pySplit (pyStrip address)).take k))) ∧
    (create_search_scenarios_with_reduction store_name address).Nodup ∧
    (create_search_scenarios_with_reduction store_name address).getLast? =
      some (pyStrip store_name) ∧
    (create_search_scenarios_with_reduction store_name address).head? =
      some (pyStrip (store_name ++ " " ++ joinSp (pySplit (pyStrip address)))) := by
  have htokS := pySplit_tokens (pyStrip address)
  have hLdrop : store_name.data.dropWhile pyIsWs ≠ [] := by
    intro heq
    apply h
    show String.mk (stripChars store_name.data) = ""
    unfold stripChars
    rw [heq]
    rfl
  have hstrip0 : pyStrip (store_name ++ " " ++
      joinSp ((pySplit (pyStrip address)).take 0)) = pyStrip store_name := by
    rw [List.take_zero]
    exact pyStrip_append_space_empty store_name
  have htoksne : ∀ t ∈ (pySplit (pyStrip address)).map String.data, t ≠ [] := by
    intro t ht
    obtain ⟨x, hx, rfl⟩ := List.mem_map.mp ht
    exact (htokS x hx).1
  have hstripk : ∀ k, 1 ≤ k → k ≤ (pySplit (pyStrip address)).length →
      (pyStrip (store_name ++ " " ++
        joinSp ((pySplit (pyStrip address)).take k))).data =
      store_name.data.dropWhile pyIsWs ++
        ' ' :: joinSpChars (((pySplit (pyStrip address)).map String.data).take k) := by
    intro k h1 h2
    have hmapne : ((pySplit (pyStrip address)).take k).map String.data ≠ [] := by
      simp only [ne_eq, ← List.length_eq_zero, List.length_map, List.length_take]
      omega
    have hmaptok : ∀ t ∈ ((pySplit (pyStrip address)).take k).map String.data,
        t ≠ [] ∧ ∀ c ∈ t, pyIsWs c = false := by
      intro t ht
      obtain ⟨x, hx, rfl⟩ := List.mem_map.mp ht
      exact htokS x (List.mem_of_mem_take hx)
    obtain ⟨J, c, hJ, hc⟩ :=
      joinSpChars_ends_nonws _ hmapne hmaptok
    have hdata : (store_name ++ " " ++
        joinSp ((pySplit (pyStrip address)).take k)).data =
        store_name.data ++
          ' ' :: joinSpChars (((pySplit (pyStrip address)).take k).map String.data) := by
      rw [String.data_append, String.data_append]
      show store_name.data ++ [' '] ++ _ = _
      simp [joinSp]
    show stripChars (store_name ++ " " ++
        joinSp ((pySplit (pyStrip address)).take k)).data = _
    rw [hdata, stripChars_append_sep store_name.data _ J c hLdrop hJ hc,
      List.map_take]
  have htne : ∀ k, k ≤ (pySplit (pyStrip address)).length →
      pyStrip (store_name ++ " " ++
        joinSp ((pySplit (pyStrip address)).take k)) ≠ "" := by
    intro k hk
    rcases Nat.eq_zero_or_pos k with rfl | hk1
    · rw [hstrip0]
      exact h
    · intro he
      have hd := hstripk k hk1 hk
      rw [he] at hd
      have : ([] : List Char) =
          store_name.data.dropWhile pyIsWs ++
            ' ' :: joinSpChars (((pySplit (pyStrip address)).map String.data).take k) :=
        hd
      simp at this
  have hlen0 : (pyStrip (store_name ++ " " ++
      joinSp ((pySplit (pyStrip address)).take 0))).length ≤
      (store_name.data.dropWhile pyIsWs).length := by
    rw [hstrip0]
    show (stripChars store_name.data).length ≤ _
    exact stripChars_length_le_dropWhile _
  have hlenk : ∀ k, 1 ≤ k → k ≤ (pySplit (pyStrip address)).length →
      (pyStrip (store_name ++ " " ++
        joinSp ((pySplit (pyStrip address)).take k))).length =
      (store_name.data.dropWhile pyIsWs).length + 1 +
        (joinSpChars (((pySplit (pyStrip address)).map String.data).take k)).length := by
    intro k h1 h2
    show (pyStrip (store_name ++ " " ++
        joinSp ((pySplit (pyStrip address)).take k))).data.length = _
    rw [hstripk k h1 h2]
    simp only [List.length_append, List.length_cons]
    omega
  have hmono := joinSpChars_take_lt ((pySplit (pyStrip address)).map String.data) htoksne
  have hmlen : ((pySplit (pyStrip address)).map String.data).length =
      (pySplit (pyStrip address)).length := List.length_map _ _
  have hinj : ∀ k1 ∈ (List.range ((pySplit (pyStrip address)).length + 1)).reverse,
      ∀ k2 ∈ (List.range ((pySplit (pyStrip address)).length + 1)).reverse,
      pyStrip (store_name ++ " " ++ joinSp ((pySplit (pyStrip address)).take k1)) =
        pyStrip (store_name ++ " " ++ joinSp ((pySplit (pyStrip address)).take k2)) →
      k1 = k2 := by
    intro k1 hk1 k2 hk2 heq
    have hb1 : k1 ≤ (pySplit (pyStrip address)).length := by
      have := List.mem_range.mp (List.mem_reverse.mp hk1)
      omega
    have hb2 : k2 ≤ (pySplit (pyStrip address)).length := by
      have := List.mem_range.mp (List.mem_reverse.mp hk2)
      omega
    have hle : (pyStrip (store_name ++ " " ++
        joinSp ((pySplit (pyStrip address)).take k1))).length =
        (pyStrip (store_name ++ " " ++
          joinSp ((pySplit (pyStrip address)).take k2))).length := by
      rw [heq]
    rcases Nat.eq_zero_or_pos k1 with rfl | h1 <;>
      rcases Nat.eq_zero_or_pos k2 with rfl | h2
    · rfl
    · exfalso
      rw [hlenk k2 h2 hb2] at hle
      omega
    · exfalso
      rw [hlenk k1 h1 hb1] at hle
      omega
    · rw [hlenk k1 h1 hb1, hlenk k2 h2 hb2] at hle
      by_contra hne
      rcases Nat.lt_or_ge k1 k2 with hlt | hge
      · have := hmono k2 k1 hlt (by omega)
        omega
      · have hlt2 : k2 < k1 := by omega
        have := hmono k1 k2 hlt2 (by omega)
        omega
  have hnodupT : ((List.range ((pySplit (pyStrip address)).length + 1)).reverse.map
      (fun k => pyStrip (store_name ++ " " ++
        joinSp ((pySplit (pyStrip address)).take k)))).Nodup :=
    List.Nodup.map_on hinj (List.nodup_reverse.mpr (List.nodup_range _))
  have hmain : create_search_scenarios_with_reduction store_name address =
      (List.range ((pySplit (pyStrip address)).length + 1)).reverse.map
        (fun k => pyStrip (store_name ++ " " ++
          joinSp ((pySplit (pyStrip address)).take k))) := by
    have hraweq := scenario_raw_map store_name (pySplit (pyStrip address))
    have hne2 : ∀ s ∈ ((if (pySplit (pyStrip address)).isEmpty then []
        else [store_name ++ " " ++ joinSp (pySplit (pyStrip address))]) ++
        ((List.range ((pySplit (pyStrip address)).length - 1)).reverse.map
          (fun i => store_name ++ " " ++
            joinSp ((pySplit (pyStrip address)).take (i + 1)))) ++
        [store_name]), pyStrip s ≠ "" := by
      intro s hs
      have hmem : pyStrip s ∈
          (List.range ((pySplit (pyStrip address)).length + 1)).reverse.map
            (fun k => pyStrip (store_name ++ " " ++
              joinSp ((pySplit (pyStrip address)).take k))) := by
        rw [← hraweq]
        exact List.mem_map_of_mem pyStrip hs
      obtain ⟨k, hk, hkeq⟩ := List.mem_map.mp hmem
      have hkb : k ≤ (pySplit (pyStrip address)).length := by
        have := List.mem_range.mp (List.mem_reverse.mp hk)
        omega
      rw [← hkeq]
      exact htne k hkb
    have hnodupR : (((if (pySplit (pyStrip address)).isEmpty then []
        else [store_name ++ " " ++ joinSp (pySplit (pyStrip address))]) ++
        ((List.range ((pySplit (pyStrip address)).length - 1)).reverse.map
          (fun i => store_name ++ " " ++
            joinSp ((pySplit (pyStrip address)).take (i + 1)))) ++
        [store_name]).map pyStrip).Nodup := by
      rw [hraweq]
      exact hnodupT
    show pyUnique _ = _
    unfold pyUnique
    rw [pyUniqueAux_eq_map _ [] hnodupR hne2 (fun s _ => rfl)]
    exact hraweq
  refine ⟨hmain, ?_, ?_, ?_⟩
  · rw [hmain]
    exact hnodupT
  · rw [hmain, List.getLast?_map, List.getLast?_reverse]
    have hhead : (List.range ((pySplit (pyStrip address)).length + 1)).head? =
        some 0 := by
      rw [List.range_succ_eq_map]
      rfl
    rw [hhead]
    show some (pyStrip (store_name ++ " " ++
      joinSp ((pySplit (pyStrip address)).take 0))) = _
    rw [hstrip0]
  · rw [hmain, List.head?_map, List.head?_reverse]
    have hlast : (List.range ((pySplit (pyStrip address)).length + 1)).getLast? =
        some (pySplit (pyStrip address)).length := by
      rw [List.range_succ, List.getLast?_concat]
    rw [hlast]
    show some (pyStrip (store_name ++ " " ++
      joinSp ((pySplit (pyStrip address)).take (pySplit (pyStrip address)).length))) = _
    rw [List.take_length]

/-- Claim C6 counterexample: for the empty store name the final scenario is not
the bare name — with address "서울" the produced list is ["서울"], whose last
element differs from the stripped bare name "". -/
theorem create_search_scenarios_empty_name_cex :
    (create_search_scenarios_with_reduction "" "서울").getLast? ≠
      some (pyStrip "") := by
  decide

/-- Claim C6 witness: the theorem instantiated at store name "스타벅스" and
address "서울 강남구": three scenarios, no duplicates, bare name last, full
query first. -/
theorem create_search_scenarios_spec_witness :
    (create_search_scenarios_with_reduction "스타벅스" "서울 강남구").Nodup ∧
    (create_search_scenarios_with_reduction "스타벅스" "서울 강남구").getLast? =
      some (pyStrip "스타벅스") ∧
    (create_search_scenarios_with_reduction "스타벅스" "서울 강남구").head? =
      some (pyStrip ("스타벅스" ++ " " ++ joinSp (pySplit (pyStrip "서울 강남구")))) :=
  (create_search_scenarios_spec "스타벅스" "서울 강남구" (by decide)).2

/-! ## Claim C5: the failure trace of the integrated search -/

lemma infix_append_left {α : Type} {n l2 l3 : List α} (h : n <:+: l3) :
    n <:+: l2 ++ l3 := by
  obtain ⟨s, t, hst⟩ := h
  exact ⟨l2 ++ s, t, by rw [← hst]; simp⟩

lemma isSubChars_of_infix : ∀ {h n : List Char}, n <:+: h → isSubChars n h = true := by
  intro h
  induction h with
  | nil =>
    intro n hn
    have : n = [] := List.eq_nil_of_infix_nil hn
    subst this
    rfl
  | cons c rest ih =>
    intro n hn
    unfold isSubChars
    rcases List.infix_cons_iff.mp hn with hp | hi
    · rw [List.isPrefixOf_iff_prefix.mpr hp]
      rfl
    · rw [ih hi]
      simp

lemma mem_isSub_joinArrow (q : String) (ts : List String) (hq : q ∈ ts) :
    isSub q (joinArrow ts) = true := by
  apply isSubChars_of_infix
  show q.data <:+: joinArrowChars (ts.map String.data)
  induction ts with
  | nil => cases hq
  | cons t rest ih =>
    rcases List.mem_cons.mp hq with rfl | hq'
    · cases rest with
      | nil => exact List.infix_refl _
      | cons u us =>
        show q.data <:+: q.data ++ ' ' :: '→' :: ' ' :: joinArrowChars _
        exact (List.prefix_append _ _).isInfix
    · cases rest with
      | nil => cases hq'
      | cons u us =>
        have hx := ih hq'
        show q.data <:+: t.data ++ ' ' :: '→' :: ' ' :: joinArrowChars ((u :: us).map String.data)
        have : t.data ++ ' ' :: '→' :: ' ' :: joinArrowChars ((u :: us).map String.data) =
            (t.data ++ [' ', '→', ' ']) ++ joinArrowChars ((u :: us).map String.data) := by
          simp
        rw [this]
        exact infix_append_left hx

lemma naver_failed_query (oracle : String → Option ApiPlace)
    (store_name category address : String)
    (h : (naver_search_store_location oracle store_name category address).found = false) :
    (naver_search_store_location oracle store_name category address).query =
      joinArrow (create_search_scenarios_with_reduction store_name
        (clean_address_for_search address)) := by
  simp only [naver_search_store_location] at h ⊢
  cases hm : scenarioLoop oracle (naver_validate_address_match address)
      (create_search_scenarios_with_reduction store_name
        (clean_address_for_search address)) 1 with
  | some trip =>
    rcases trip with ⟨q, i, place⟩
    rw [hm] at h
    simp at h
  | none => rfl

lemma kakao_failed_query (oracle : String → Option ApiPlace)
    (store_name category address : String)
    (h : (kakao_search_store_location oracle store_name category address).found = false) :
    (kakao_search_store_location oracle store_name category address).query =
      joinArrow (create_search_scenarios_with_reduction store_name
        (clean_address_for_search address)) := by
  simp only [kakao_search_store_location] at h ⊢
  cases hm : scenarioLoop oracle (kakao_validate_address_match address)
      (create_search_scenarios_with_reduction store_name
        (clean_address_for_search address)) 1 with
  | some trip =>
    rcases trip with ⟨q, i, place⟩
    rw [hm] at h
    simp at h
  | none => rfl

/-- Claim C5 counterexample: with both providers configured and answering every
query with no result, the combined lookup for ("스타벅스", "카페",
"서울 강남구 역삼동") fails, but its query field is only the fixed marker plus
the cleaned name — the attempted query "스타벅스 서울 강남구 역삼동" (the first
scenario of both providers) does not occur in it, so the combined result does
not carry the concatenated trace of attempted queries. -/
theorem search_location_trace_cex :
    (search_location (some (fun _ => none)) (some (fun _ => none))
      "스타벅스" "카페" "서울 강남구 역삼동").found = false ∧
    (search_location (some (fun _ => none)) (some (fun _ => none))
      "스타벅스" "카페" "서울 강남구 역삼동").query =
      "네이버+카카오 모두 실패: 스타벅스" ∧
    (create_search_scenarios_with_reduction (clean_store_name "스타벅스")
      (clean_address_for_search "서울 강남구 역삼동")).head? =
      some "스타벅스 서울 강남구 역삼동" ∧
    isSub "스타벅스 서울 강남구 역삼동" "네이버+카카오 모두 실패: 스타벅스" = false := by
  refine ⟨?_, ?_, ?_, ?_⟩ <;> decide

/-- Claim C5 (amended): when both providers exhaust all scenarios without a
validated hit, the combined result has found = false but its query field is
only the fixed failure marker plus the cleaned store name; the concatenated
trace of all attempted queries is carried by each provider's own failure
result, whose query field is the ' → '-join of that provider's scenario list
and hence contains every attempted query as a substring. -/
theorem search_location_failure_trace (oN oK : String → Option ApiPlace)
    (store_name category address : String)
    (hN : (naver_search_store_location oN (clean_store_name store_name)
      category address).found = false)
    (hK : (kakao_search_store_location oK (clean_store_name store_name)
      category address).found = false) :
    (search_location (some oN) (some oK) store_name category address).found = false ∧
    (search_location (some oN) (some oK) store_name category address).query =
      "네이버+카카오 모두 실패: " ++ clean_store_name store_name ∧
    (naver_search_store_location oN (clean_store_name store_name)
        category address).query =
      joinArrow (create_search_scenarios_with_reduction (clean_store_name store_name)
        (clean_address_for_search address)) ∧
    (kakao_search_store_location oK (clean_store_name store_name)
        category address).query =
      joinArrow (create_search_scenarios_with_reduction (clean_store_name store_name)
        (clean_address_for_search address)) ∧
    (∀ q ∈ create_search_scenarios_with_reduction (clean_store_name store_name)
        (clean_address_for_search address),
      isSub q ((naver_search_store_location oN (clean_store_name store_name)
        category address).query) = true ∧
      isSub q ((kakao_search_store_location oK (clean_store_name store_name)
        category address).query) = true) := by
  have hres : search_location (some oN) (some oK) store_name category address =
      searchAllFailed store_name address (clean_store_name store_name) := by
    simp only [search_location, searchLocationKakao]
    rw [hN]
    simp only [Bool.false_eq_true, if_false]
    rw [hK]
    simp only [Bool.false_eq_true, if_false]
  have hNq := naver_failed_query oN (clean_store_name store_name) category address hN
  have hKq := kakao_failed_query oK (clean_store_name store_name) category address hK
  refine ⟨by rw [hres]; rfl, by rw [hres]; rfl, hNq, hKq, ?_⟩
  intro q hq
  rw [hNq, hKq]
  exact ⟨mem_isSub_joinArrow q _ hq, mem_isSub_joinArrow q _ hq⟩

/-- Claim C5 (amended) witness: the concrete all-failing instance; the first
scenario occurs in the Naver provider trace. -/
theorem search_location_failure_trace_witness :
    (search_location (some (fun _ => none)) (some (fun _ => none))
      "스타벅스" "카페" "서울 강남구 역삼동").query =
      "네이버+카카오 모두 실패: " ++ clean_store_name "스타벅스" ∧
    isSub "스타벅스 서울 강남구 역삼동"
      ((naver_search_store_location (fun _ => none) (clean_store_name "스타벅스")
        "카페" "서울 강남구 역삼동").query) = true := by
  have h := search_location_failure_trace (fun _ => none) (fun _ => none)
    "스타벅스" "카페" "서울 강남구 역삼동" (by decide) (by decide)
  exact ⟨h.2.1, (h.2.2.2.2 "스타벅스 서울 강남구 역삼동" (by decide)).1⟩

/-! ## The Engine save path (`BaseCrawler.save_store_data`) -/

/-- Model of Python `str.upper()` (used for the category code). -/
def pyUpper (s : String) : String := String.mk (s.data.map Char.toUpper)

/-- One raw listing dict as consumed by `save_store_data` (`category` is
`Option` to model the `.get('category', '기타')` default). -/
structure Listing where
  name : String
  address : String
  category : Option String
  phone : String
  storeType : String
  distance : String
deriving Repr, DecidableEq

/-- One entry of the in-memory `failed_stores` list. -/
structure FailedRecord where
  store_name : String
  address : String
  category : String
  phone : String
  store_type : String
  distance : String
  search_attempts : String
  region_info : String
  failed_apis : String
  error_reason : String
  timestamp : String
deriving Repr, DecidableEq

/-- The local `stats` dict of `save_store_data`. -/
structure SaveStats where
  saved : Nat
  skipped : Nat
  api_failed : Nat
  naver_success : Nat
  kakao_success : Nat
  duplicates : Nat
  errors : Nat
  new_regions : Nat
deriving Repr, DecidableEq

/-- The state threaded through the `save_store_data` loop: the relational
store, the local stats, and the accumulated failed-lookup records. -/
structure SaveState where
  db : Database
  stats : SaveStats
  failed_stores : List FailedRecord
deriving Repr

/-- Model of `Crawler.extract_region_from_address`: parse, require truthy
province and city, return the (province, city, town) triple. -/
def extract_region_from_address (address : String) :
    Option (String × String × Option String) :=
  let parsed := parse_address address
  if pyTruthy parsed.province && pyTruthy parsed.city then
    some (parsed.province.getD "", parsed.city.getD "", parsed.town)
  else none

/-- The loop body of `BaseCrawler.save_store_data` for one listing.
`parseRegion` is the abstract `extract_region_from_address` method, `search`
the `IntegratedMapAPI.search_location` call, `salt` the time-based code salt of
the spec-modelled `get_or_create_region`, `now` the timestamp. A found result
with no coordinates payload raises in Python and is absorbed by the
per-listing except-block as an error. -/
def processListing (parseRegion : String → Option (String × String × Option String))
    (search : String → String → String → SearchOutcome)
    (salt now : String) (st : SaveState) (store_data : Listing) : SaveState :=
  let original_name := pyStrip store_data.name
  let address := pyStrip store_data.address
  let category_name := pyStrip (store_data.category.getD "기타")
  if original_name == "" || address == "" then
    { st with stats := { st.stats with skipped := st.stats.skipped + 1 } }
  else
    match parseRegion address with
    | none => { st with stats := { st.stats with skipped := st.stats.skipped + 1 } }
    | some (province, city, town) =>
      let rg := get_or_create_region st.db salt province city town
      let search_result := search original_name category_name address
      if !search_result.found then
        { db := rg.2
          stats := { st.stats with api_failed := st.stats.api_failed + 1 }
          failed_stores := st.failed_stores ++
            [{ store_name := original_name
               address := address
               category := category_name
               phone := store_data.phone
               store_type := store_data.storeType
               distance := store_data.distance
               search_attempts := search_result.query
               region_info := rg.1.province ++ " " ++ rg.1.city ++ " " ++
                 rg.1.town.getD ""
               failed_apis := "naver,kakao"
               error_reason := search_result.error.getD "Unknown"
               timestamp := now }] }
      else
        match search_result.coordinates with
        | none =>
          { st with db := rg.2
                    stats := { st.stats with errors := st.stats.errors + 1 } }
        | some coords =>
          let final_store_name := search_result.api_store_name.getD original_name
          let final_store_addr := search_result.api_store_addr.getD address
          let stats1 :=
            if search_result.api_used == "naver" then
              { st.stats with naver_success := st.stats.naver_success + 1 }
            else if search_result.api_used == "kakao" then
              { st.stats with kakao_success := st.stats.kakao_success + 1 }
            else st.stats
          if store_exists rg.2 final_store_name final_store_addr rg.1.id then
            { st with db := rg.2
                      stats := { stats1 with
                        duplicates := stats1.duplicates + 1
                        skipped := stats1.skipped + 1 } }
          else
            let cg := create_category rg.2 (pyUpper category_name) category_name
            let db3 := (create_store cg.2 final_store_name cg.1 rg.1 final_store_addr
              (some coords.latitude) (some coords.longitude) none (some "월~일")
              (some category_name) true none).2
            { st with db := db3
                      stats := { stats1 with saved := stats1.saved + 1 } }

/-- Model of `BaseCrawler.save_store_data`: fold the loop body over the listing
batch, starting from zeroed local stats and the crawler's persisted state. -/
def save_store_data (parseRegion : String → Option (String × String × Option String))
    (search : String → String → String → SearchOutcome)
    (salt now : String) (db : Database) (failed0 : List FailedRecord)
    (stores_data : List Listing) : SaveState :=
  stores_data.foldl (processListing parseRegion search salt now)
    { db := db, stats := ⟨0, 0, 0, 0, 0, 0, 0, 0⟩, failed_stores := failed0 }

lemma gocr_stores (db : Database) (salt province city : String) (town : Option String) :
    ((get_or_create_region db salt province city town).2).stores = db.stores := by
  unfold get_or_create_region
  cases h : db.regions.find?
      (fun r => r.province == province && r.city == city && r.town == town) <;>
    simp [h]

lemma gocr_regions_of_found (db : Database) (salt province city : String)
    (town : Option String) (r : Region)
    (h : db.regions.find?
      (fun r => r.province == province && r.city == city && r.town == town) = some r) :
    get_or_create_region db salt province city town = (r, db) := by
  unfold get_or_create_region
  rw [h]

lemma create_category_stores (db : Database) (code name : String) :
    ((create_category db code name).2).stores = db.stores := by
  unfold create_category
  cases h : db.categories.find? (fun c => c.name == name) <;> simp [h]

lemma create_category_regions (db : Database) (code name : String) :
    ((create_category db code name).2).regions = db.regions := by
  unfold create_category
  cases h : db.categories.find? (fun c => c.name == name) <;> simp [h]

lemma create_store_stores (db : Database) (name : String) (category : Category)
    (region : Region) (address : String) (latitude longitude : Option ℚ)
    (annual_sales : Option Nat) (business_days : Option String)
    (category_str : Option String) (is_franchise : Bool)
    (opening_hours : Option String) :
    ((create_store db name category region address latitude longitude annual_sales
        business_days category_str is_franchise opening_hours).2).stores =
      db.stores ++ [(create_store db name category region address latitude longitude
        annual_sales business_days category_str is_franchise opening_hours).1] := rfl

lemma create_store_regions (db : Database) (name : String) (category : Category)
    (region : Region) (address : String) (latitude longitude : Option ℚ)
    (annual_sales : Option Nat) (business_days : Option String)
    (category_str : Option String) (is_franchise : Bool)
    (opening_hours : Option String) :
    ((create_store db name category region address latitude longitude annual_sales
        business_days category_str is_franchise opening_hours).2).regions =
      db.regions := rfl

lemma store_exists_stores_congr (db db' : Database) (name address : String)
    (region_id : Nat) (h : db.stores = db'.stores) :
    store_exists db name address region_id = store_exists db' name address region_id := by
  unfold store_exists
  rw [h]

lemma processListing_saves
    (parseRegion : String → Option (String × String × Option String))
    (search : String → String → String → SearchOutcome) (salt now : String)
    (st : SaveState) (d : Listing) (province city : String) (town : Option String)
    (coords : ApiPlace) (sr : SearchOutcome) (fname faddr : String)
    (rg : Region × Database)
    (hsr : search (pyStrip d.name) (pyStrip (d.category.getD "기타"))
      (pyStrip d.address) = sr)
    (hrg : get_or_create_region st.db salt province city town = rg)
    (hfn : sr.api_store_name.getD (pyStrip d.name) = fname)
    (hfa : sr.api_store_addr.getD (pyStrip d.address) = faddr)
    (hname : (pyStrip d.name == "") = false)
    (haddr : (pyStrip d.address == "") = false)
    (hparse : parseRegion (pyStrip d.address) = some (province, city, town))
    (hfound : sr.found = true)
    (hcoords : sr.coordinates = some coords)
    (hdup : store_exists rg.2 fname faddr rg.1.id = false) :
    ∃ row : StoreRow,
      (processListing parseRegion search salt now st d).db.stores =
        st.db.stores ++ [row] ∧
      row.name = fname ∧ row.address = faddr ∧ row.region_id = rg.1.id ∧
      (processListing parseRegion search salt now st d).db.regions = rg.2.regions ∧
      (processListing parseRegion search salt now st d).stats.saved =
        st.stats.saved + 1 ∧
      (processListing parseRegion search salt now st d).stats.duplicates =
        st.stats.duplicates := by
  have hstores : rg.2.stores = st.db.stores := by
    rw [← hrg]
    exact gocr_stores st.db salt province city town
  simp only [processListing, hname, haddr, Bool.or_false, Bool.false_or,
    Bool.false_eq_true, if_false, hparse, hsr, hrg, hfound, Bool.not_true,
    hcoords, hfn, hfa, hdup]
  refine ⟨(create_store (create_category rg.2 (pyUpper (pyStrip (d.category.getD "기타")))
        (pyStrip (d.category.getD "기타"))).2 fname
        (create_category rg.2 (pyUpper (pyStrip (d.category.getD "기타")))
          (pyStrip (d.category.getD "기타"))).1 rg.1 faddr (some coords.latitude)
        (some coords.longitude) none (some "월~일")
        (some (pyStrip (d.category.getD "기타"))) true none).1,
      ?_, rfl, rfl, rfl, ?_, ?_, ?_⟩
  · rw [create_store_stores, create_category_stores, hstores]
  · rw [create_store_regions, create_category_regions]
  · show (if (sr.api_used == "naver") = true then
        { st.stats with naver_success := st.stats.naver_success + 1 }
      else if (sr.api_used == "kakao") = true then
        { st.stats with kakao_success := st.stats.kakao_success + 1 }
      else st.stats).saved + 1 = st.stats.saved + 1
    split_ifs <;> rfl
  · show (if (sr.api_used == "naver") = true then
        { st.stats with naver_success := st.stats.naver_success + 1 }
      else if (sr.api_used == "kakao") = true then
        { st.stats with kakao_success := st.stats.kakao_success + 1 }
      else st.stats).duplicates = st.stats.duplicates
    split_ifs <;> rfl

lemma processListing_dup
    (parseRegion : String → Option (String × String × Option String))
    (search : String → String → String → SearchOutcome) (salt now : String)
    (st : SaveState) (d : Listing) (province city : String) (town : Option String)
    (coords : ApiPlace) (sr : SearchOutcome) (fname faddr : String)
    (rg : Region × Database)
    (hsr : search (pyStrip d.name) (pyStrip (d.category.getD "기타"))
      (pyStrip d.address) = sr)
    (hrg : get_or_create_region st.db salt province city town = rg)
    (hfn : sr.api_store_name.getD (pyStrip d.name) = fname)
    (hfa : sr.api_store_addr.getD (pyStrip d.address) = faddr)
    (hname : (pyStrip d.name == "") = false)
    (haddr : (pyStrip d.address == "") = false)
    (hparse : parseRegion (pyStrip d.address) = some (province, city, town))
    (hfound : sr.found = true)
    (hcoords : sr.coordinates = some coords)
    (hdup : store_exists rg.2 fname faddr rg.1.id = true) :
    (processListing parseRegion search salt now st d).db = rg.2 ∧
    (processListing parseRegion search salt now st d).stats.saved =
      st.stats.saved ∧
    (processListing parseRegion search salt now st d).stats.duplicates =
      st.stats.duplicates + 1 := by
  simp only [processListing, hname, haddr, Bool.or_false, Bool.false_or,
    Bool.false_eq_true, if_false, hparse, hsr, hrg, hfound, Bool.not_true,
    hcoords, hfn, hfa, hdup]
  refine ⟨rfl, ?_, ?_⟩
  · show (if (sr.api_used == "naver") = true then
        { st.stats with naver_success := st.stats.naver_success + 1 }
      else if (sr.api_used == "kakao") = true then
        { st.stats with kakao_success := st.stats.kakao_success + 1 }
      else st.stats).saved = st.stats.saved
    split_ifs <;> rfl
  · show (if (sr.api_used == "naver") = true then
        { st.stats with naver_success := st.stats.naver_success + 1 }
      else if (sr.api_used == "kakao") = true then
        { st.stats with kakao_success := st.stats.kakao_success + 1 }
      else st.stats).duplicates + 1 = st.stats.duplicates + 1
    split_ifs <;> rfl

/-- Claim C2: when the same listing (identical name, address, hence identical
resolved region) is submitted twice through the save path and its geocoding
succeeds both times with the same result, then starting from a database holding
no row with the final (name, address, region_id) triple, exactly one Store row
with that triple exists afterwards, the first submission increments the saved
counter (to 1) and the second increments the duplicates counter (to 1) instead
of inserting a row. The region lookup relies on the spec-modelled
`get_or_create_region`. -/
theorem save_store_data_dedup
    (parseRegion : String → Option (String × String × Option String))
    (search : String → String → String → SearchOutcome) (salt now : String)
    (db0 : Database) (d : Listing) (province city : String) (town : Option String)
    (coords : ApiPlace)
    (hname : (pyStrip d.name == "") = false)
    (haddr : (pyStrip d.address == "") = false)
    (hparse : parseRegion (pyStrip d.address) = some (province, city, town))
    (hfound : (search (pyStrip d.name) (pyStrip (d.category.getD "기타"))
      (pyStrip d.address)).found = true)
    (hcoords : (search (pyStrip d.name) (pyStrip (d.category.getD "기타"))
      (pyStrip d.address)).coordinates = some coords)
    (hinit : store_exists db0
      ((search (pyStrip d.name) (pyStrip (d.category.getD "기타"))
        (pyStrip d.address)).api_store_name.getD (pyStrip d.name))
      ((search (pyStrip d.name) (pyStrip (d.category.getD "기타"))
        (pyStrip d.address)).api_store_addr.getD (pyStrip d.address))
      (get_or_create_region db0 salt province city town).1.id = false) :
    storeTripleCount (save_store_data parseRegion search salt now db0 [] [d, d]).db
      ((search (pyStrip d.name) (pyStrip (d.category.getD "기타"))
        (pyStrip d.address)).api_store_name.getD (pyStrip d.name))
      ((search (pyStrip d.name) (pyStrip (d.category.getD "기타"))
        (pyStrip d.address)).api_store_addr.getD (pyStrip d.address))
      (get_or_create_region db0 salt province city town).1.id = 1 ∧
    (save_store_data parseRegion search salt now db0 [] [d, d]).stats.saved = 1 ∧
    (save_store_data parseRegion search salt now db0 [] [d, d]).stats.duplicates
      = 1 := by
  set sr := search (pyStrip d.name) (pyStrip (d.category.getD "기타"))
    (pyStrip d.address) with hsrdef
  set rg0 := get_or_create_region db0 salt province city town with hrgdef
  set fname := sr.api_store_name.getD (pyStrip d.name) with hfndef
  set faddr := sr.api_store_addr.getD (pyStrip d.address) with hfadef
  have hdup0 : store_exists rg0.2 fname faddr rg0.1.id = false := by
    rw [store_exists_stores_congr rg0.2 db0 fname faddr rg0.1.id
      (by rw [hrgdef]; exact gocr_stores db0 salt province city town)]
    exact hinit
  obtain ⟨row, hrowst, hrname, hraddr, hrreg, hregs, hsv1, hdp1⟩ :=
    processListing_saves parseRegion search salt now
      ⟨db0, ⟨0, 0, 0, 0, 0, 0, 0, 0⟩, []⟩ d province city town coords sr fname faddr
      rg0 hsrdef.symm hrgdef.symm hfndef.symm hfadef.symm hname haddr hparse
      hfound hcoords hdup0
  have hfind1 : ((processListing parseRegion search salt now
        ⟨db0, ⟨0, 0, 0, 0, 0, 0, 0, 0⟩, []⟩ d).db).regions.find?
      (fun r => r.province == province && r.city == city && r.town == town) =
        some rg0.1 := by
    rw [hregs]
    have h := find?_after_get_or_create_region db0 salt province city town
    rw [← hrgdef] at h
    exact h
  have hrg1 : get_or_create_region
      (processListing parseRegion search salt now
        ⟨db0, ⟨0, 0, 0, 0, 0, 0, 0, 0⟩, []⟩ d).db salt province city town =
      (rg0.1, (processListing parseRegion search salt now
        ⟨db0, ⟨0, 0, 0, 0, 0, 0, 0, 0⟩, []⟩ d).db) :=
    gocr_regions_of_found _ salt province city town rg0.1 hfind1
  have hprow : (row.name == fname && row.address == faddr &&
      row.region_id == rg0.1.id) = true := by
    rw [hrname, hraddr, hrreg]
    simp
  have hdup1 : store_exists
      (rg0.1, (processListing parseRegion search salt now
        ⟨db0, ⟨0, 0, 0, 0, 0, 0, 0, 0⟩, []⟩ d).db).2 fname faddr
      (rg0.1, (processListing parseRegion search salt now
        ⟨db0, ⟨0, 0, 0, 0, 0, 0, 0, 0⟩, []⟩ d).db).1.id = true := by
    show store_exists (processListing parseRegion search salt now
      ⟨db0, ⟨0, 0, 0, 0, 0, 0, 0, 0⟩, []⟩ d).db fname faddr rg0.1.id = true
    unfold store_exists
    rw [hrowst, List.any_append]
    simp [List.any_cons, List.any_nil, hprow]
  obtain ⟨hdb2, hsv2, hdp2⟩ :=
    processListing_dup parseRegion search salt now
      (processListing parseRegion search salt now
        ⟨db0, ⟨0, 0, 0, 0, 0, 0, 0, 0⟩, []⟩ d) d province city town coords sr
      fname faddr
      (rg0.1, (processListing parseRegion search salt now
        ⟨db0, ⟨0, 0, 0, 0, 0, 0, 0, 0⟩, []⟩ d).db)
      hsrdef.symm hrg1 hfndef.symm hfadef.symm hname haddr hparse hfound hcoords
      hdup1
  have hssd : save_store_data parseRegion search salt now db0 [] [d, d] =
      processListing parseRegion search salt now
        (processListing parseRegion search salt now
          ⟨db0, ⟨0, 0, 0, 0, 0, 0, 0, 0⟩, []⟩ d) d := rfl
  refine ⟨?_, ?_, ?_⟩
  · rw [hssd, hdb2]
    show storeTripleCount (processListing parseRegion search salt now
      ⟨db0, ⟨0, 0, 0, 0, 0, 0, 0, 0⟩, []⟩ d).db fname faddr rg0.1.id = 1
    unfold storeTripleCount
    rw [hrowst, List.countP_append]
    have h0 : db0.stores.countP (fun s => s.name == fname && s.address == faddr &&
        s.region_id == rg0.1.id) = 0 := by
      rw [List.countP_eq_zero]
      intro s hs
      have hany : db0.stores.any (fun s => s.name == fname && s.address == faddr &&
          s.region_id == rg0.1.id) = false := hinit
      rw [List.any_eq_false] at hany
      exact hany s hs
    rw [h0]
    simp [List.countP_cons, hprow]
  · rw [hssd, hsv2, hsv1]
  · rw [hssd, hdp2, hdp1]

theorem save_store_data_dedup_witness :
    storeTripleCount (save_store_data extract_region_from_address
        (fun n _ _ => ⟨true, "naver_reduction_1", n,
          some ⟨1, 2, "스타벅스 역삼점", "서울 강남구 역삼동 123",
            "서울 강남구 테헤란로 1", "서울 강남구 역삼동 123",
            "서울 강남구 테헤란로 1", "카페"⟩,
          "naver", none, some "스타벅스 역삼점", some "서울 강남구 테헤란로 1"⟩)
        "S" "T" ⟨[], [], [], 0, 0, 0⟩ []
        [⟨"스타벅스", "서울 강남구 역삼동 123", some "카페", "", "", ""⟩,
         ⟨"스타벅스", "서울 강남구 역삼동 123", some "카페", "", "", ""⟩]).db
      "스타벅스 역삼점" "서울 강남구 테헤란로 1" 0 = 1 ∧
    (save_store_data extract_region_from_address
        (fun n _ _ => ⟨true, "naver_reduction_1", n,
          some ⟨1, 2, "스타벅스 역삼점", "서울 강남구 역삼동 123",
            "서울 강남구 테헤란로 1", "서울 강남구 역삼동 123",
            "서울 강남구 테헤란로 1", "카페"⟩,
          "naver", none, some "스타벅스 역삼점", some "서울 강남구 테헤란로 1"⟩)
        "S" "T" ⟨[], [], [], 0, 0, 0⟩ []
        [⟨"스타벅스", "서울 강남구 역삼동 123", some "카페", "", "", ""⟩,
         ⟨"스타벅스", "서울 강남구 역삼동 123", some "카페", "", "", ""⟩]).stats.saved
      = 1 ∧
    (save_store_data extract_region_from_address
        (fun n _ _ => ⟨true, "naver_reduction_1", n,
          some ⟨1, 2, "스타벅스 역삼점", "서울 강남구 역삼동 123",
            "서울 강남구 테헤란로 1", "서울 강남구 역삼동 123",
            "서울 강남구 테헤란로 1", "카페"⟩,
          "naver", none, some "스타벅스 역삼점", some "서울 강남구 테헤란로 1"⟩)
        "S" "T" ⟨[], [], [], 0, 0, 0⟩ []
        [⟨"스타벅스", "서울 강남구 역삼동 123", some "카페", "", "", ""⟩,
         ⟨"스타벅스", "서울 강남구 역삼동 123", some "카페", "", "", ""⟩]).stats.duplicates
      = 1 :=
  save_store_data_dedup extract_region_from_address
    (fun n _ _ => ⟨true, "naver_reduction_1", n,
      some ⟨1, 2, "스타벅스 역삼점", "서울 강남구 역삼동 123",
        "서울 강남구 테헤란로 1", "서울 강남구 역삼동 123",
        "서울 강남구 테헤란로 1", "카페"⟩,
      "naver", none, some "스타벅스 역삼점", some "서울 강남구 테헤란로 1"⟩)
    "S" "T" ⟨[], [], [], 0, 0, 0⟩
    ⟨"스타벅스", "서울 강남구 역삼동 123", some "카페", "", "", ""⟩
    "서울특별시" "강남구" (some "역삼동")
    ⟨1, 2, "스타벅스 역삼점", "서울 강남구 역삼동 123",
      "서울 강남구 테헤란로 1", "서울 강남구 역삼동 123",
      "서울 강남구 테헤란로 1", "카페"⟩
    (by decide) (by decide) (by decide) rfl rfl (by decide)
